import Mathlib

/-!
# RPC adapter of the multi-chain ledger node (`service/adapter/rpc/api.go`)

A shallow embedding of the request handlers of `RpcServ`.

* Go pointers that the code tests against `nil` (or returns as `nil`) are `Option`s.
* Go `(value, error)` results of collaborators are `Except Error value`.
* Every handler returns a `Reply`: the response pointer, the call-level error and the
  ordered list of collaborator calls the handler made (the log sink is left out: it never
  affects control flow).
* Collaborators (engine, chain handle, readers, network) and the helpers of the package that
  live in other files (`defRespHeader`, `ErrorEnum`, the converters) are fields of `Env`.
* `int64` values are `Int`s; the one place where the code does arithmetic on them goes
  through `wrapInt64`.
* Byte strings (`[]byte` ids) are `String`s.
* A handler that reads `in.Header` (or a slot `in.Bcs[i]`) without a `nil` test takes its
  request (its slots) as a value: on a `nil` pointer the Go handler does not return.
-/

set_option autoImplicit false
set_option linter.dupNamespace false

namespace Rpc

/-! ## Errors and headers -/

/-- Go `error` values: the two standard errors the handlers create themselves, and any other
error value handed back by a collaborator. -/
inductive Error where
  | ErrParameter
  | ErrInternal
  | other (msg : String)
  deriving DecidableEq, Repr

/-- The wire-level codes of `pb.XChainErrorEnum` that the handlers name, plus all others. -/
inductive XChainErrorEnum where
  | SUCCESS
  | BLOCKCHAIN_NOTEXIST
  | BLOCK_EXIST_ERROR
  | ACCOUNT_CONTRACT_STATUS_ERROR
  | code (n : Nat)
  deriving DecidableEq, Repr

/-- The header message `pb.Header`. -/
structure Header where
  Logid : String
  Error : XChainErrorEnum
  deriving DecidableEq, Repr

/-- A chain instance as returned by `engine.Get`. -/
structure Chain where
  id : Nat
  deriving DecidableEq, Repr

/-- A chain handle as returned by `models.NewChainHandle`. -/
structure ChainHandle where
  id : Nat
  deriving DecidableEq, Repr

/-! ## Messages -/

structure Transaction where
  Txid : String
  deriving DecidableEq, Repr

/-- The ledger's own transaction type (result of `TxToXledger`). -/
structure XTransaction where
  Txid : String
  deriving DecidableEq, Repr

structure TxStatus where
  Header : Option Header
  Bcname : String
  Txid : String
  Status : Nat
  Distance : Int
  Tx : Option Transaction
  deriving DecidableEq, Repr

structure CommonReply where
  Header : Option Header
  deriving DecidableEq, Repr

structure InvokeRequest where
  ModuleName : String
  ContractName : String
  MethodName : String
  deriving DecidableEq, Repr

/-- The kernel's invoke request (result of `ConvertInvokeReq`). -/
structure XInvokeRequest where
  ModuleName : String
  ContractName : String
  MethodName : String
  deriving DecidableEq, Repr

structure InvokeRPCRequest where
  Header : Option Header
  Bcname : String
  Requests : List InvokeRequest
  Initiator : String
  AuthRequire : List String
  deriving DecidableEq, Repr

structure InvokeResponse where
  Response : List String
  GasUsed : Int
  deriving DecidableEq, Repr

/-- The kernel's invoke response (argument of `ConvertInvokeResp`). -/
structure XInvokeResponse where
  Response : List String
  GasUsed : Int
  deriving DecidableEq, Repr

structure InvokeRPCResponse where
  Header : Option Header
  Bcname : String
  Response : Option InvokeResponse
  deriving DecidableEq, Repr

structure SignatureInfo where
  PublicKey : String
  Sign : String
  deriving DecidableEq, Repr

structure PreExecWithSelectUTXORequest where
  Header : Option Header
  Bcname : String
  Address : String
  TotalAmount : Int
  SignInfo : Option SignatureInfo
  NeedLock : Bool
  Request : Option InvokeRPCRequest
  deriving DecidableEq, Repr

structure UtxoInput where
  Header : Option Header
  Bcname : String
  Address : String
  Publickey : String
  TotalNeed : String
  UserSign : String
  NeedLock : Bool
  deriving DecidableEq, Repr

structure Utxo where
  Amount : String
  ToAddr : String
  RefTxid : String
  RefOffset : Int
  deriving DecidableEq, Repr

/-- The kernel's utxo type (argument of `UtxoListToXchain`). -/
structure XUtxo where
  Amount : String
  ToAddr : String
  RefTxid : String
  RefOffset : Int
  deriving DecidableEq, Repr

structure UtxoOutput where
  Header : Option Header
  UtxoList : List Utxo
  TotalSelected : String
  deriving DecidableEq, Repr

/-- The kernel's selection result (`handle.SelectUtxo`). -/
structure XUtxoOutput where
  UtxoList : List XUtxo
  TotalSelected : String
  deriving DecidableEq, Repr

structure PreExecWithSelectUTXOResponse where
  Header : Option Header
  Bcname : String
  Response : Option InvokeResponse
  UtxoOutput : Option UtxoOutput
  deriving DecidableEq, Repr

structure ContractStatData where
  AccountCount : Int
  ContractCount : Int
  deriving DecidableEq, Repr

structure ContractStatDataRequest where
  Header : Option Header
  Bcname : String
  deriving DecidableEq, Repr

structure ContractStatDataResponse where
  Header : Header
  Bcname : String
  Data : Option ContractStatData
  deriving DecidableEq, Repr

structure UtxoKey where
  RefTxid : String
  Offset : String
  Amount : String
  deriving DecidableEq, Repr

structure UtxoRecord where
  UtxoCount : String
  UtxoAmount : String
  Item : List UtxoKey
  deriving DecidableEq, Repr

/-- The reader's result of `QueryUtxoRecord`. -/
structure UtxoRecordDetail where
  OpenUtxo : Option UtxoRecord
  LockedUtxo : Option UtxoRecord
  FrozenUtxo : Option UtxoRecord
  deriving DecidableEq, Repr

structure UtxoRecordDetails where
  Header : Option Header
  Bcname : String
  AccountName : String
  OpenUtxoRecord : Option UtxoRecord
  LockedUtxoRecord : Option UtxoRecord
  FrozenUtxoRecord : Option UtxoRecord
  DisplayCount : Int
  deriving DecidableEq, Repr

structure Acl where
  AksWeight : List (String × Nat)
  deriving DecidableEq, Repr

structure AclStatus where
  Header : Option Header
  Bcname : String
  AccountName : String
  ContractName : String
  MethodName : String
  Confirmed : Bool
  Acl : Option Acl
  deriving DecidableEq, Repr

structure ContractStatus where
  ContractName : String
  Txid : String
  IsBanned : Bool
  deriving DecidableEq, Repr

structure GetAccountContractsRequest where
  Header : Option Header
  Bcname : String
  Account : String
  deriving DecidableEq, Repr

structure GetAccountContractsResponse where
  Header : Header
  ContractsStatus : List ContractStatus
  deriving DecidableEq, Repr

/-- The reader's result of `QueryTx`. -/
structure TxInfo where
  Status : Nat
  Distance : Int
  Tx : Option Transaction
  deriving DecidableEq, Repr

/-- One slot of a balance request (`pb.TokenDetail`). -/
structure TokenDetail where
  Bcname : String
  Balance : String
  Error : XChainErrorEnum
  deriving DecidableEq, Repr

structure AddressStatus where
  Header : Option Header
  Address : String
  Bcs : List TokenDetail
  deriving DecidableEq, Repr

structure TokenFrozenDetail where
  Balance : String
  IsFrozen : Bool
  deriving DecidableEq, Repr

/-- One slot of a balance-detail request (`pb.TokenFrozenDetails`); `Tfd` is a slice that
the handler resets to `nil`. -/
structure TokenFrozenDetails where
  Bcname : String
  Tfd : Option (List TokenFrozenDetail)
  Error : XChainErrorEnum
  deriving DecidableEq, Repr

structure AddressBalanceStatus where
  Header : Option Header
  Address : String
  Tfds : List TokenFrozenDetails
  deriving DecidableEq, Repr

/-- The ledger block; `Transactions` is a slice the handlers test against `nil`. -/
structure InternalBlock where
  Blockid : String
  Height : Int
  Transactions : Option (List Transaction)
  deriving DecidableEq, Repr

/-- The reader's result of `QueryBlock` and `QueryBlockByHeight`. -/
structure BlockInfo where
  Status : Nat
  Block : Option InternalBlock
  deriving DecidableEq, Repr

structure BlockID where
  Header : Option Header
  Bcname : String
  Blockid : String
  NeedContent : Bool
  deriving DecidableEq, Repr

structure BlockHeight where
  Header : Option Header
  Bcname : String
  Height : Int
  deriving DecidableEq, Repr

structure Block where
  Header : Header
  Bcname : String
  Blockid : String
  Status : Nat
  Block : Option InternalBlock
  deriving DecidableEq, Repr

structure LedgerMeta where
  RootBlockid : String
  TipBlockid : String
  TrunkHeight : Int
  deriving DecidableEq, Repr

structure UtxoMeta where
  LatestBlockid : String
  UtxoTotal : String
  deriving DecidableEq, Repr

/-- The reader's result of `GetChainStatus`. -/
structure ChainStatus where
  LedgerMeta : Option LedgerMeta
  Block : Option InternalBlock
  UtxoMeta : Option UtxoMeta
  deriving DecidableEq, Repr

structure BCStatus where
  Header : Option Header
  Bcname : String
  Meta : Option LedgerMeta
  Block : Option InternalBlock
  UtxoMeta : Option UtxoMeta
  deriving DecidableEq, Repr

structure BCTipStatus where
  Header : Header
  IsTrunkTip : Bool
  deriving DecidableEq, Repr

/-- The view selector `pb.ViewOption`: the two values the handler names, and one for the
others. -/
inductive ViewOption where
  | NONE
  | LEDGER
  | PEERS
  deriving DecidableEq, Repr

structure CommonIn where
  Header : Option Header
  ViewOption : ViewOption
  deriving DecidableEq, Repr

structure BlockChains where
  Header : Header
  Blockchains : List String
  deriving DecidableEq, Repr

/-- The two maps of `pb.Speeds`, given by their entries (the handler only creates them). -/
structure Speeds where
  SumSpeeds : List (String × Nat)
  BcSpeeds : List (String × Nat)
  deriving DecidableEq, Repr

structure SystemsStatus where
  Header : Option Header
  BcsStatus : List (Option BCStatus)
  Speeds : Option Speeds
  PeerUrls : Option (List String)
  deriving DecidableEq, Repr

structure SystemsStatusReply where
  Header : Header
  SystemsStatus : Option SystemsStatus
  deriving DecidableEq, Repr

structure RawUrl where
  Header : Header
  RawUrl : String
  deriving DecidableEq, Repr

/-- One peer of the network's peer info. -/
structure Peer where
  Address : String
  deriving DecidableEq, Repr

/-- The network's `PeerInfo`. -/
structure NetPeers where
  Address : String
  Peer : List Peer
  deriving DecidableEq, Repr

structure AK2AccountRequest where
  Header : Option Header
  Bcname : String
  Address : String
  deriving DecidableEq, Repr

structure AK2AccountResponse where
  Header : Header
  Bcname : String
  Account : List String
  deriving DecidableEq, Repr

structure AddressContractsRequest where
  Header : Option Header
  Bcname : String
  Address : String
  NeedContent : Bool
  deriving DecidableEq, Repr

structure ContractList where
  ContractStatus : List ContractStatus
  deriving DecidableEq, Repr

/-- A Go `map[string]*pb.ContractList`, as the list of its entries: `GoMap.set` keeps at
most one entry per key. -/
structure GoMap where
  entries : List (String × ContractList)
  deriving DecidableEq, Repr

structure AddressContractsResponse where
  Header : Header
  Contracts : Option GoMap
  deriving DecidableEq, Repr

/-- Stand-in for the response messages of the `Dpos*` family (never built by the code). -/
structure DposReply where
  Header : Option Header
  deriving DecidableEq, Repr

/-- Stand-in for the request messages of the `Dpos*` family (never read by the code). -/
structure DposRequest where
  Header : Option Header
  Bcname : String
  deriving DecidableEq, Repr

/-! ## Calls, replies and the environment -/

/-- A call made by a handler: to the chain resolver (`models.NewChainHandle`, `engine.Get`),
to the engine or the network, to an access object (chain handle or reader), or to another
handler of the same server. -/
inductive Call where
  | NewChainHandle (bcname : String)
  | engineGet (bcname : String)
  | GetChains
  | PeerInfo
  | SubmitTx (h : ChainHandle) (tx : Transaction)
  | PreExec (h : ChainHandle) (reqs : List XInvokeRequest) (initiator : String)
      (authRequire : List String)
  | SelectUtxo (h : ChainHandle) (address : String) (totalNeed : Int) (needLock : Bool)
      (excludeUnconfirmed : Bool) (pubkey : String) (sign : String)
  | QueryContractStatData (c : Chain)
  | QueryUtxoRecord (c : Chain) (account : String) (displayCount : Int)
  | QueryAccountACL (c : Chain) (account : String)
  | QueryContractMethodACL (c : Chain) (contract : String) (method : String)
  | GetAccountContracts (c : Chain) (account : String)
  | QueryTx (c : Chain) (txid : String)
  | GetBalance (c : Chain) (address : String)
  | GetFrozenBalance (c : Chain) (address : String)
  | GetBalanceDetail (c : Chain) (address : String)
  | QueryBlock (c : Chain) (blockid : String) (needContent : Bool)
  | QueryBlockByHeight (c : Chain) (height : Int) (needContent : Bool)
  | GetChainStatus (c : Chain)
  | IsTrunkTipBlock (c : Chain) (blockid : String)
  | GetAccountByAK (c : Chain) (address : String)
  | handlerPreExec (req : Option InvokeRPCRequest)
  | handlerSelectUTXO (req : Option UtxoInput)
  | handlerGetBlockChainStatus (req : BCStatus)
  deriving DecidableEq, Repr

/-- The call goes to the chain resolver. -/
def Call.isResolver : Call → Bool
  | .NewChainHandle _ => true
  | .engineGet _ => true
  | _ => false

/-- The call goes to an access object: a method of a chain handle or of a reader. -/
def Call.isAccess : Call → Bool
  | .SubmitTx .. => true
  | .PreExec .. => true
  | .SelectUtxo .. => true
  | .QueryContractStatData _ => true
  | .QueryUtxoRecord .. => true
  | .QueryAccountACL .. => true
  | .QueryContractMethodACL .. => true
  | .GetAccountContracts .. => true
  | .QueryTx .. => true
  | .GetBalance .. => true
  | .GetFrozenBalance .. => true
  | .GetBalanceDetail .. => true
  | .QueryBlock .. => true
  | .QueryBlockByHeight .. => true
  | .GetChainStatus _ => true
  | .IsTrunkTipBlock .. => true
  | .GetAccountByAK .. => true
  | _ => false

/-- What a handler hands back: the response pointer (`none` is `nil`), the call-level error
(`none` is `nil`) and the calls it made, in order. -/
structure Reply (α : Type) where
  resp : Option α
  err : Option Error
  calls : List Call
  deriving DecidableEq, Repr

/-- Everything the handlers of `api.go` call that is not defined in `api.go`. -/
structure Env where
  /-- Go `models.NewChainHandle(bcname, rctx)` -/
  NewChainHandle : String → Except Error ChainHandle
  /-- Go `handle.SubmitTx(tx)` -/
  SubmitTx : ChainHandle → Transaction → Option Error
  /-- Go `handle.PreExec(reqs, initiator, authRequire)` -/
  PreExec : ChainHandle → List XInvokeRequest → String → List String →
    Except Error XInvokeResponse
  /-- Go `handle.SelectUtxo(address, totalNeed, needLock, excludeUnconfirmed, pubkey, sign)` -/
  SelectUtxo : ChainHandle → String → Int → Bool → Bool → String → String →
    Except Error XUtxoOutput
  /-- Go `s.engine.Get(bcname)` -/
  engineGet : String → Except Error Chain
  /-- Go `s.engine.GetChains()` -/
  GetChains : List String
  /-- Go `s.engine.Context().Net.PeerInfo()` -/
  PeerInfo : NetPeers
  /-- Go `contractReader.QueryContractStatData()` -/
  QueryContractStatData : Chain → Except Error (Option ContractStatData)
  /-- Go `utxoReader.QueryUtxoRecord(account, displayCount)` -/
  QueryUtxoRecord : Chain → String → Int → Except Error UtxoRecordDetail
  /-- Go `contractReader.QueryAccountACL(account)` -/
  QueryAccountACL : Chain → String → Except Error (Option Acl)
  /-- Go `contractReader.QueryContractMethodACL(contract, method)` -/
  QueryContractMethodACL : Chain → String → String → Except Error (Option Acl)
  /-- Go `contractReader.GetAccountContracts(account)` -/
  GetAccountContracts : Chain → String → Except Error (List ContractStatus)
  /-- Go `ledgerReader.QueryTx(txid)` -/
  QueryTx : Chain → String → Except Error TxInfo
  /-- Go `utxoReader.GetBalance(address)` -/
  GetBalance : Chain → String → Except Error String
  /-- Go `utxoReader.GetFrozenBalance(address)` -/
  GetFrozenBalance : Chain → String → Except Error String
  /-- Go `utxoReader.GetBalanceDetail(address)` -/
  GetBalanceDetail : Chain → String → Except Error (Option (List TokenFrozenDetail))
  /-- Go `ledgerReader.QueryBlock(blockid, needContent)` -/
  QueryBlock : Chain → String → Bool → Except Error BlockInfo
  /-- Go `ledgerReader.QueryBlockByHeight(height, needContent)` -/
  QueryBlockByHeight : Chain → Int → Bool → Except Error BlockInfo
  /-- Go `chainReader.GetChainStatus()`: the Go pair as it is, since the handler reads the
  status whatever the error. -/
  GetChainStatus : Chain → Option ChainStatus × Option Error
  /-- Go `chainReader.IsTrunkTipBlock(blockid)` -/
  IsTrunkTipBlock : Chain → String → Except Error Bool
  /-- Go `contractReader.GetAccountByAK(address)`; `ok none` is a `nil` slice without error. -/
  GetAccountByAK : Chain → String → Except Error (Option (List String))
  /-- Go `TxToXledger(tx)` of the package (`nil` when the conversion fails). -/
  TxToXledger : Transaction → Option XTransaction
  /-- Go `ConvertInvokeReq(requests)` of the package. -/
  ConvertInvokeReq : List InvokeRequest → Except Error (List XInvokeRequest)
  /-- Go `ConvertInvokeResp(res)` of the package. -/
  ConvertInvokeResp : XInvokeResponse → Option InvokeResponse
  /-- Go `UtxoListToXchain(list)` of the package. -/
  UtxoListToXchain : List XUtxo → Except Error (List Utxo)
  /-- Go `defRespHeader(header)` of the package (never `nil`: the handlers write to it). -/
  defRespHeader : Option Header → Header
  /-- Go `ErrorEnum(err)` of the package, called on errors that are not `nil`. -/
  ErrorEnum : Error → XChainErrorEnum

/-! ## Library functions -/

/-- Two's-complement wrap-around of `int64` arithmetic. -/
def wrapInt64 (x : Int) : Int :=
  (x + 2 ^ 63) % 2 ^ 64 - 2 ^ 63

/-- The value fits an `int64`. -/
def isInt64 (x : Int) : Prop :=
  -(2 ^ 63) ≤ x ∧ x < 2 ^ 63

/-- The decimal digit a character stands for. -/
def digitVal (c : Char) : Option Nat :=
  if 48 ≤ c.toNat ∧ c.toNat ≤ 57 then some (c.toNat - 48) else none

/-- Reads a run of decimal digits up to the end of the input. -/
def scanDigits : List Char → Nat → Option Nat
  | [], acc => some acc
  | c :: cs, acc =>
    match digitVal c with
    | some d => scanDigits cs (acc * 10 + d)
    | none => none

/-- Go's `new(big.Int).SetString(s, 10)`: an optional sign, then at least one decimal digit,
and nothing else; `none` when `ok` is false. -/
def SetString10 (s : String) : Option Int :=
  match s.toList with
  | [] => none
  | '-' :: cs => if cs = [] then none else (scanDigits cs 0).map (fun n => -(n : Int))
  | '+' :: cs => if cs = [] then none else (scanDigits cs 0).map (fun n => (n : Int))
  | cs => (scanDigits cs 0).map (fun n => (n : Int))

/-- Go's `big.NewInt(x).String()`: the decimal rendering of an integer. -/
def bigIntString (x : Int) : String :=
  toString x

/-- Go's `m[k]` on a map (a `nil` map has no entries). -/
def GoMap.get (m : GoMap) (k : String) : Option ContractList :=
  List.lookup k m.entries

/-- The entry list after `m[k] = v`. -/
def GoMap.setEntries (k : String) (v : ContractList) :
    List (String × ContractList) → List (String × ContractList)
  | [] => [(k, v)]
  | (k1, v1) :: rest =>
    if k1 = k then (k, v) :: rest else (k1, v1) :: GoMap.setEntries k v rest

/-- Go's `m[k] = v`. -/
def GoMap.set (m : GoMap) (k : String) (v : ContractList) : GoMap :=
  { entries := GoMap.setEntries k v m.entries }

/-- The keys of the map. -/
def GoMap.keys (m : GoMap) : List String :=
  m.entries.map (fun e => e.1)

/-! ## Handlers of the write path -/

/-- Go `RpcServ.PostTx` -/
def PostTx (env : Env) (req : Option TxStatus) : Reply CommonReply :=
  let resp : CommonReply := { Header := none }
  match req with
  | none => ⟨some resp, some .ErrParameter, []⟩
  | some req =>
    match req.Tx with
    | none => ⟨some resp, some .ErrParameter, []⟩
    | some reqTx =>
      if req.Bcname = "" then ⟨some resp, some .ErrParameter, []⟩
      else
        match env.TxToXledger reqTx with
        | none => ⟨some resp, some .ErrParameter, []⟩
        | some _ =>
          match env.NewChainHandle req.Bcname with
          | .error err => ⟨some resp, some err, [.NewChainHandle req.Bcname]⟩
          | .ok handle =>
            ⟨some resp, env.SubmitTx handle reqTx,
              [.NewChainHandle req.Bcname, .SubmitTx handle reqTx]⟩

/-- Go `RpcServ.PreExec` -/
def PreExec (env : Env) (req : Option InvokeRPCRequest) : Reply InvokeRPCResponse :=
  let resp : InvokeRPCResponse := { Header := none, Bcname := "", Response := none }
  match req with
  | none => ⟨some resp, some .ErrParameter, []⟩
  | some req =>
    if req.Bcname = "" ∨ req.Requests.length < 1 then ⟨some resp, some .ErrParameter, []⟩
    else
      match env.ConvertInvokeReq req.Requests with
      | .error _ => ⟨some resp, some .ErrParameter, []⟩
      | .ok reqs =>
        match env.NewChainHandle req.Bcname with
        | .error err => ⟨some resp, some err, [.NewChainHandle req.Bcname]⟩
        | .ok handle =>
          match env.PreExec handle reqs req.Initiator req.AuthRequire with
          | .error err =>
            ⟨some resp, some err,
              [.NewChainHandle req.Bcname,
                .PreExec handle reqs req.Initiator req.AuthRequire]⟩
          | .ok res =>
            ⟨some { resp with Bcname := req.Bcname, Response := env.ConvertInvokeResp res },
              none,
              [.NewChainHandle req.Bcname,
                .PreExec handle reqs req.Initiator req.AuthRequire]⟩

/-- Go `RpcServ.SelectUTXO` -/
def SelectUTXO (env : Env) (req : Option UtxoInput) : Reply UtxoOutput :=
  let resp : UtxoOutput := { Header := none, UtxoList := [], TotalSelected := "" }
  match req with
  | none => ⟨some resp, some .ErrParameter, []⟩
  | some req =>
    if req.Bcname = "" ∨ req.TotalNeed = "" then ⟨some resp, some .ErrParameter, []⟩
    else
      match SetString10 req.TotalNeed with
      | none => ⟨some resp, some .ErrParameter, []⟩
      | some totalNeed =>
        match env.NewChainHandle req.Bcname with
        | .error err => ⟨some resp, some err, [.NewChainHandle req.Bcname]⟩
        | .ok handle =>
          match env.SelectUtxo handle req.Address totalNeed req.NeedLock false
              req.Publickey req.UserSign with
          | .error err =>
            ⟨some resp, some err,
              [.NewChainHandle req.Bcname,
                .SelectUtxo handle req.Address totalNeed req.NeedLock false
                  req.Publickey req.UserSign]⟩
          | .ok out =>
            match env.UtxoListToXchain out.UtxoList with
            | .error _ =>
              ⟨some resp, some .ErrInternal,
                [.NewChainHandle req.Bcname,
                  .SelectUtxo handle req.Address totalNeed req.NeedLock false
                    req.Publickey req.UserSign]⟩
            | .ok utxoList =>
              ⟨some { resp with UtxoList := utxoList, TotalSelected := out.TotalSelected },
                none,
                [.NewChainHandle req.Bcname,
                  .SelectUtxo handle req.Address totalNeed req.NeedLock false
                    req.Publickey req.UserSign]⟩

/-- Go `len(req.GetRequest())`: the number of invocation requests of the nested pre-execution
request, zero when there is none. -/
def requestLen (r : Option InvokeRPCRequest) : Nat :=
  match r with
  | none => 0
  | some r => r.Requests.length

/-- Go `preExecRes.GetResponse().GetGasUsed()`: zero through `nil`. -/
def gasUsedOf (preExecRes : Option InvokeRPCResponse) : Int :=
  match preExecRes with
  | none => 0
  | some r =>
    match r.Response with
    | none => 0
    | some ir => ir.GasUsed

/-- Go `preExecRes.GetResponse()`: `nil` through `nil`. -/
def responseOf (preExecRes : Option InvokeRPCResponse) : Option InvokeResponse :=
  match preExecRes with
  | none => none
  | some r => r.Response

/-- The `pb.UtxoInput` that `PreExecWithSelectUTXO` builds for `SelectUTXO`. -/
def mkUtxoInput (req : PreExecWithSelectUTXORequest) (totalAmount : Int) : UtxoInput :=
  { Header := req.Header
    Bcname := req.Bcname
    Address := req.Address
    Publickey := match req.SignInfo with
      | none => ""
      | some si => si.PublicKey
    TotalNeed := bigIntString totalAmount
    UserSign := match req.SignInfo with
      | none => ""
      | some si => si.Sign
    NeedLock := req.NeedLock }

/-- Go `RpcServ.PreExecWithSelectUTXO` -/
def PreExecWithSelectUTXO (env : Env) (req : Option PreExecWithSelectUTXORequest) :
    Reply PreExecWithSelectUTXOResponse :=
  let resp : PreExecWithSelectUTXOResponse :=
    { Header := none, Bcname := "", Response := none, UtxoOutput := none }
  match req with
  | none => ⟨some resp, some .ErrParameter, []⟩
  | some req =>
    if req.Bcname = "" ∨ requestLen req.Request < 1 then
      ⟨some resp, some .ErrParameter, []⟩
    else
      let pre := PreExec env req.Request
      match pre.err with
      | some err => ⟨some resp, some err, .handlerPreExec req.Request :: pre.calls⟩
      | none =>
        let totalAmount := wrapInt64 (req.TotalAmount + gasUsedOf pre.resp)
        if totalAmount < 1 then
          ⟨some resp, none, .handlerPreExec req.Request :: pre.calls⟩
        else
          let utxoInput := mkUtxoInput req totalAmount
          let sel := SelectUTXO env (some utxoInput)
          match sel.err with
          | some err =>
            ⟨some resp, some err,
              .handlerPreExec req.Request :: pre.calls ++
                .handlerSelectUTXO (some utxoInput) :: sel.calls⟩
          | none =>
            let utxoOut := sel.resp.map (fun o => { o with Header := req.Header })
            ⟨some { resp with
                Bcname := req.Bcname
                Response := responseOf pre.resp
                UtxoOutput := utxoOut },
              none,
              .handlerPreExec req.Request :: pre.calls ++
                .handlerSelectUTXO (some utxoInput) :: sel.calls⟩

/-! ## Simple query handlers -/

/-- Go's `out.Header.Error = code` on a header pointer that is not `nil`. -/
def setHeaderError (h : Header) (code : XChainErrorEnum) : Header :=
  { h with Error := code }

/-- Go `RpcServ.QueryContractStatData` -/
def QueryContractStatData (env : Env) (inp : ContractStatDataRequest) :
    Reply ContractStatDataResponse :=
  let out : ContractStatDataResponse :=
    { Header := env.defRespHeader inp.Header, Bcname := "", Data := none }
  match env.engineGet inp.Bcname with
  | .error err =>
    ⟨some { out with Header := setHeaderError out.Header .BLOCKCHAIN_NOTEXIST }, some err,
      [.engineGet inp.Bcname]⟩
  | .ok chain =>
    match env.QueryContractStatData chain with
    | .error err => ⟨none, some err, [.engineGet inp.Bcname, .QueryContractStatData chain]⟩
    | .ok contractStatData =>
      ⟨some { out with Data := contractStatData }, none,
        [.engineGet inp.Bcname, .QueryContractStatData chain]⟩

/-- Go `RpcServ.QueryUtxoRecord` -/
def QueryUtxoRecord (env : Env) (inp : UtxoRecordDetails) : Reply UtxoRecordDetails :=
  let hdr := env.defRespHeader inp.Header
  let out : UtxoRecordDetails :=
    { Header := some hdr, Bcname := "", AccountName := "", OpenUtxoRecord := none,
      LockedUtxoRecord := none, FrozenUtxoRecord := none, DisplayCount := 0 }
  match env.engineGet inp.Bcname with
  | .error err =>
    ⟨some { out with Header := some (setHeaderError hdr .BLOCKCHAIN_NOTEXIST) }, some err,
      [.engineGet inp.Bcname]⟩
  | .ok chain =>
    if inp.AccountName.length > 0 then
      match env.QueryUtxoRecord chain inp.AccountName inp.DisplayCount with
      | .error err =>
        ⟨some out, some err,
          [.engineGet inp.Bcname, .QueryUtxoRecord chain inp.AccountName inp.DisplayCount]⟩
      | .ok utxoRecord =>
        ⟨some { out with
            FrozenUtxoRecord := utxoRecord.FrozenUtxo
            LockedUtxoRecord := utxoRecord.LockedUtxo
            OpenUtxoRecord := utxoRecord.OpenUtxo },
          none,
          [.engineGet inp.Bcname, .QueryUtxoRecord chain inp.AccountName inp.DisplayCount]⟩
    else ⟨some out, none, [.engineGet inp.Bcname]⟩

/-- Go `RpcServ.QueryACL` -/
def QueryACL (env : Env) (inp : AclStatus) : Reply AclStatus :=
  let hdr := env.defRespHeader inp.Header
  let out : AclStatus :=
    { Header := some hdr, Bcname := "", AccountName := "", ContractName := "",
      MethodName := "", Confirmed := false, Acl := none }
  match env.engineGet inp.Bcname with
  | .error err =>
    ⟨some { out with Header := some (setHeaderError hdr .BLOCKCHAIN_NOTEXIST) }, some err,
      [.engineGet inp.Bcname]⟩
  | .ok chain =>
    let accountName := inp.AccountName
    let contractName := inp.ContractName
    let methodName := inp.MethodName
    if accountName.length > 0 then
      match env.QueryAccountACL chain accountName with
      | .error err =>
        ⟨some { out with Confirmed := false }, some err,
          [.engineGet inp.Bcname, .QueryAccountACL chain accountName]⟩
      | .ok acl =>
        ⟨some { out with Confirmed := true, Acl := acl }, none,
          [.engineGet inp.Bcname, .QueryAccountACL chain accountName]⟩
    else if contractName.length > 0 then
      if methodName.length > 0 then
        match env.QueryContractMethodACL chain contractName methodName with
        | .error err =>
          ⟨some { out with Confirmed := false }, some err,
            [.engineGet inp.Bcname, .QueryContractMethodACL chain contractName methodName]⟩
        | .ok acl =>
          ⟨some { out with Confirmed := true, Acl := acl }, none,
            [.engineGet inp.Bcname, .QueryContractMethodACL chain contractName methodName]⟩
      else ⟨some out, none, [.engineGet inp.Bcname]⟩
    else ⟨some out, none, [.engineGet inp.Bcname]⟩

/-- Go `RpcServ.GetAccountContracts` -/
def GetAccountContracts (env : Env) (inp : GetAccountContractsRequest) :
    Reply GetAccountContractsResponse :=
  let out : GetAccountContractsResponse :=
    { Header := env.defRespHeader inp.Header, ContractsStatus := [] }
  match env.engineGet inp.Bcname with
  | .error err =>
    ⟨some { out with Header := setHeaderError out.Header .BLOCKCHAIN_NOTEXIST }, some err,
      [.engineGet inp.Bcname]⟩
  | .ok chain =>
    match env.GetAccountContracts chain inp.Account with
    | .error err =>
      ⟨some { out with Header := setHeaderError out.Header .ACCOUNT_CONTRACT_STATUS_ERROR },
        some err, [.engineGet inp.Bcname, .GetAccountContracts chain inp.Account]⟩
    | .ok contractsStatus =>
      ⟨some { out with ContractsStatus := contractsStatus }, none,
        [.engineGet inp.Bcname, .GetAccountContracts chain inp.Account]⟩

/-- Go `RpcServ.QueryTx` -/
def QueryTx (env : Env) (inp : TxStatus) : Reply TxStatus :=
  let hdr := env.defRespHeader inp.Header
  let out : TxStatus :=
    { Header := some hdr, Bcname := "", Txid := "", Status := 0, Distance := 0, Tx := none }
  match env.engineGet inp.Bcname with
  | .error err =>
    ⟨some { out with Header := some (setHeaderError hdr .BLOCKCHAIN_NOTEXIST) }, some err,
      [.engineGet inp.Bcname]⟩
  | .ok chain =>
    match env.QueryTx chain inp.Txid with
    | .error err => ⟨some out, some err, [.engineGet inp.Bcname, .QueryTx chain inp.Txid]⟩
    | .ok txInfo =>
      ⟨some { out with Tx := txInfo.Tx, Status := txInfo.Status, Distance := txInfo.Distance },
        none, [.engineGet inp.Bcname, .QueryTx chain inp.Txid]⟩

/-! ## Multi-chain fan-out handlers -/

/-- One iteration of the loop of `RpcServ.GetBalance`: the slot after it, and the calls. -/
def GetBalance.body (env : Env) (address : String) (slot : TokenDetail) :
    TokenDetail × List Call :=
  match env.engineGet slot.Bcname with
  | .error _ =>
    ({ slot with Error := .BLOCKCHAIN_NOTEXIST, Balance := "" }, [.engineGet slot.Bcname])
  | .ok chain =>
    match env.GetBalance chain address with
    | .error err =>
      ({ slot with Error := env.ErrorEnum err, Balance := "" },
        [.engineGet slot.Bcname, .GetBalance chain address])
    | .ok balance =>
      ({ slot with Error := .SUCCESS, Balance := balance },
        [.engineGet slot.Bcname, .GetBalance chain address])

/-- Go `RpcServ.GetBalance`: the loop writes each slot of `in.Bcs` in place, in index order,
and the request itself is returned. -/
def GetBalance (env : Env) (inp : AddressStatus) : Reply AddressStatus :=
  let steps := inp.Bcs.map (GetBalance.body env inp.Address)
  ⟨some { inp with Bcs := steps.map (fun st => st.1) }, none,
    (steps.map (fun st => st.2)).flatten⟩

/-- One iteration of the loop of `RpcServ.GetFrozenBalance`. -/
def GetFrozenBalance.body (env : Env) (address : String) (slot : TokenDetail) :
    TokenDetail × List Call :=
  match env.engineGet slot.Bcname with
  | .error _ =>
    ({ slot with Error := .BLOCKCHAIN_NOTEXIST, Balance := "" }, [.engineGet slot.Bcname])
  | .ok chain =>
    match env.GetFrozenBalance chain address with
    | .error err =>
      ({ slot with Error := env.ErrorEnum err, Balance := "" },
        [.engineGet slot.Bcname, .GetFrozenBalance chain address])
    | .ok balance =>
      ({ slot with Error := .SUCCESS, Balance := balance },
        [.engineGet slot.Bcname, .GetFrozenBalance chain address])

/-- Go `RpcServ.GetFrozenBalance` -/
def GetFrozenBalance (env : Env) (inp : AddressStatus) : Reply AddressStatus :=
  let steps := inp.Bcs.map (GetFrozenBalance.body env inp.Address)
  ⟨some { inp with Bcs := steps.map (fun st => st.1) }, none,
    (steps.map (fun st => st.2)).flatten⟩

/-- One iteration of the loop of `RpcServ.GetBalanceDetail`. -/
def GetBalanceDetail.body (env : Env) (address : String) (slot : TokenFrozenDetails) :
    TokenFrozenDetails × List Call :=
  match env.engineGet slot.Bcname with
  | .error _ =>
    ({ slot with Error := .BLOCKCHAIN_NOTEXIST, Tfd := none }, [.engineGet slot.Bcname])
  | .ok chain =>
    match env.GetBalanceDetail chain address with
    | .error err =>
      ({ slot with Error := env.ErrorEnum err, Tfd := none },
        [.engineGet slot.Bcname, .GetBalanceDetail chain address])
    | .ok tfd =>
      ({ slot with Error := .SUCCESS, Tfd := tfd },
        [.engineGet slot.Bcname, .GetBalanceDetail chain address])

/-- Go `RpcServ.GetBalanceDetail` -/
def GetBalanceDetail (env : Env) (inp : AddressBalanceStatus) : Reply AddressBalanceStatus :=
  let steps := inp.Tfds.map (GetBalanceDetail.body env inp.Address)
  ⟨some { inp with Tfds := steps.map (fun st => st.1) }, none,
    (steps.map (fun st => st.2)).flatten⟩

/-! ## Block and status handlers -/

/-- Go `block.GetTransactions()` on a block pointer: `nil` through `nil`. -/
def getTransactions (block : Option InternalBlock) : Option (List Transaction) :=
  match block with
  | none => none
  | some b => b.Transactions

/-- The copy loop of `RpcServ.GetBlock`: appends every transaction to a fresh slice. -/
def transactionsFilter (transactions : Option (List Transaction)) : List Transaction :=
  match transactions with
  | none => []
  | some ts => ts.foldl (fun acc transaction => acc ++ [transaction]) []

/-- Go's `out.Block.Transactions = ts` on the block pointer of the response. -/
def setTransactions (block : Option InternalBlock) (ts : List Transaction) :
    Option InternalBlock :=
  match block with
  | none => none
  | some b => some { b with Transactions := some ts }

/-- Go `RpcServ.GetBlock` -/
def GetBlock (env : Env) (inp : BlockID) : Reply Block :=
  let out : Block :=
    { Header := env.defRespHeader inp.Header, Bcname := "", Blockid := "", Status := 0,
      Block := none }
  match env.engineGet inp.Bcname with
  | .error err =>
    ⟨some { out with Header := setHeaderError out.Header .BLOCKCHAIN_NOTEXIST }, some err,
      [.engineGet inp.Bcname]⟩
  | .ok chain =>
    match env.QueryBlock chain inp.Blockid true with
    | .error _ =>
      ⟨some out, none, [.engineGet inp.Bcname, .QueryBlock chain inp.Blockid true]⟩
    | .ok blockInfo =>
      let transactions := getTransactions blockInfo.Block
      let filtered := transactionsFilter transactions
      let outBlock :=
        match transactions with
        | none => blockInfo.Block
        | some _ => setTransactions blockInfo.Block filtered
      ⟨some { out with Block := outBlock, Status := blockInfo.Status }, none,
        [.engineGet inp.Bcname, .QueryBlock chain inp.Blockid true]⟩

/-- Go `RpcServ.GetBlockChainStatus`. The handler reads the fields of the status even when the
reader reported an error; with a `nil` status the read does not return, which is `none`. -/
def GetBlockChainStatus (env : Env) (inp : BCStatus) : Option (Reply BCStatus) :=
  let hdr := env.defRespHeader inp.Header
  let out : BCStatus :=
    { Header := some hdr, Bcname := "", Meta := none, Block := none, UtxoMeta := none }
  match env.engineGet inp.Bcname with
  | .error err =>
    some ⟨some { out with Header := some (setHeaderError hdr .BLOCKCHAIN_NOTEXIST) },
      some err, [.engineGet inp.Bcname]⟩
  | .ok chain =>
    match (env.GetChainStatus chain).1 with
    | none => none
    | some status =>
      some ⟨some { out with
          Meta := status.LedgerMeta
          Block := status.Block
          UtxoMeta := status.UtxoMeta },
        none, [.engineGet inp.Bcname, .GetChainStatus chain]⟩

/-- Go `RpcServ.ConfirmBlockChainStatus` -/
def ConfirmBlockChainStatus (env : Env) (inp : BCStatus) : Reply BCTipStatus :=
  let out : BCTipStatus := { Header := env.defRespHeader inp.Header, IsTrunkTip := false }
  match env.engineGet inp.Bcname with
  | .error err =>
    ⟨some { out with Header := setHeaderError out.Header .BLOCKCHAIN_NOTEXIST }, some err,
      [.engineGet inp.Bcname]⟩
  | .ok chain =>
    let blockid :=
      match inp.Block with
      | none => ""
      | some b => b.Blockid
    match env.IsTrunkTipBlock chain blockid with
    | .error err => ⟨none, some err, [.engineGet inp.Bcname, .IsTrunkTipBlock chain blockid]⟩
    | .ok isTrunkTip =>
      ⟨some { out with IsTrunkTip := isTrunkTip }, none,
        [.engineGet inp.Bcname, .IsTrunkTipBlock chain blockid]⟩

/-- Go `RpcServ.GetBlockChains` -/
def GetBlockChains (env : Env) (inp : CommonIn) : Reply BlockChains :=
  ⟨some { Header := env.defRespHeader inp.Header, Blockchains := env.GetChains }, none,
    [.GetChains]⟩

/-- The loop of `RpcServ.GetSystemStatus` over the chain names: the statuses appended, and
the calls; `none` when a call of `GetBlockChainStatus` does not return. -/
def GetSystemStatus.loop (env : Env) (hdr : Option Header) :
    List String → Option (List (Option BCStatus) × List Call)
  | [] => some ([], [])
  | bcName :: rest =>
    let bcStatus : BCStatus :=
      { Header := hdr, Bcname := bcName, Meta := none, Block := none, UtxoMeta := none }
    match GetBlockChainStatus env bcStatus with
    | none => none
    | some r =>
      match GetSystemStatus.loop env hdr rest with
      | none => none
      | some (sts, calls) =>
        some (r.resp :: sts, .handlerGetBlockChainStatus bcStatus :: r.calls ++ calls)

/-- Go `RpcServ.GetSystemStatus` (`none`: the handler does not return). -/
def GetSystemStatus (env : Env) (inp : CommonIn) : Option (Reply SystemsStatusReply) :=
  let out : SystemsStatusReply :=
    { Header := env.defRespHeader inp.Header, SystemsStatus := none }
  let systemsStatus : SystemsStatus :=
    { Header := inp.Header, BcsStatus := [],
      Speeds := some { SumSpeeds := [], BcSpeeds := [] }, PeerUrls := none }
  match GetSystemStatus.loop env inp.Header env.GetChains with
  | none => none
  | some (sts, calls) =>
    let systemsStatus := { systemsStatus with BcsStatus := sts }
    if inp.ViewOption = .NONE ∨ inp.ViewOption = .PEERS then
      let peerUrls := env.PeerInfo.Peer.foldl (fun acc peer => acc ++ [peer.Address]) []
      some ⟨some { out with
          SystemsStatus := some { systemsStatus with PeerUrls := some peerUrls } },
        none, .GetChains :: calls ++ [.PeerInfo]⟩
    else
      some ⟨some { out with SystemsStatus := some systemsStatus }, none, .GetChains :: calls⟩

/-- Go `RpcServ.GetNetURL` -/
def GetNetURL (env : Env) (inp : CommonIn) : Reply RawUrl :=
  ⟨some { Header := env.defRespHeader inp.Header, RawUrl := env.PeerInfo.Address }, none,
    [.PeerInfo]⟩

/-- Go `RpcServ.GetBlockByHeight` -/
def GetBlockByHeight (env : Env) (inp : BlockHeight) : Reply Block :=
  let out : Block :=
    { Header := env.defRespHeader inp.Header, Bcname := "", Blockid := "", Status := 0,
      Block := none }
  match env.engineGet inp.Bcname with
  | .error err =>
    ⟨some { out with Header := setHeaderError out.Header .BLOCKCHAIN_NOTEXIST }, some err,
      [.engineGet inp.Bcname]⟩
  | .ok chain =>
    match env.QueryBlockByHeight chain inp.Height true with
    | .error err =>
      ⟨some { out with Header := setHeaderError out.Header .BLOCK_EXIST_ERROR }, some err,
        [.engineGet inp.Bcname, .QueryBlockByHeight chain inp.Height true]⟩
    | .ok blockInfo =>
      let outBlock :=
        match getTransactions blockInfo.Block with
        | none => blockInfo.Block
        | some transactions => setTransactions blockInfo.Block transactions
      ⟨some { out with Block := outBlock, Status := blockInfo.Status }, none,
        [.engineGet inp.Bcname, .QueryBlockByHeight chain inp.Height true]⟩

/-! ## Account handlers -/

/-- Go `RpcServ.GetAccountByAK` -/
def GetAccountByAK (env : Env) (inp : AK2AccountRequest) : Reply AK2AccountResponse :=
  let out : AK2AccountResponse :=
    { Header := env.defRespHeader inp.Header, Bcname := inp.Bcname, Account := [] }
  match env.engineGet inp.Bcname with
  | .error err =>
    ⟨some { out with Header := setHeaderError out.Header .BLOCKCHAIN_NOTEXIST }, some err,
      [.engineGet inp.Bcname]⟩
  | .ok chain =>
    match env.GetAccountByAK chain inp.Address with
    | .error err =>
      ⟨some out, some err, [.engineGet inp.Bcname, .GetAccountByAK chain inp.Address]⟩
    | .ok none => ⟨some out, none, [.engineGet inp.Bcname, .GetAccountByAK chain inp.Address]⟩
    | .ok (some accounts) =>
      ⟨some { out with Account := accounts }, none,
        [.engineGet inp.Bcname, .GetAccountByAK chain inp.Address]⟩

/-- The loop of `RpcServ.GetAddressContracts` over the accounts: the map after it, and the
calls. -/
def GetAddressContracts.loop (env : Env) (chain : Chain) :
    List String → GoMap → GoMap × List Call
  | [], m => (m, [])
  | account :: rest, m =>
    match env.GetAccountContracts chain account with
    | .error _ =>
      let r := GetAddressContracts.loop env chain rest m
      (r.1, .GetAccountContracts chain account :: r.2)
    | .ok contracts =>
      let m1 := if contracts.length > 0 then m.set account { ContractStatus := contracts } else m
      let r := GetAddressContracts.loop env chain rest m1
      (r.1, .GetAccountContracts chain account :: r.2)

/-- Go `RpcServ.GetAddressContracts` -/
def GetAddressContracts (env : Env) (inp : AddressContractsRequest) :
    Reply AddressContractsResponse :=
  let out : AddressContractsResponse :=
    { Header := env.defRespHeader inp.Header, Contracts := none }
  match env.engineGet inp.Bcname with
  | .error err =>
    ⟨some { out with Header := setHeaderError out.Header .BLOCKCHAIN_NOTEXIST }, some err,
      [.engineGet inp.Bcname]⟩
  | .ok chain =>
    match env.GetAccountByAK chain inp.Address with
    | .error err =>
      ⟨some out, some err, [.engineGet inp.Bcname, .GetAccountByAK chain inp.Address]⟩
    | .ok none => ⟨some out, none, [.engineGet inp.Bcname, .GetAccountByAK chain inp.Address]⟩
    | .ok (some accounts) =>
      let r := GetAddressContracts.loop env chain accounts { entries := [] }
      ⟨some { out with Contracts := some r.1 }, none,
        .engineGet inp.Bcname :: .GetAccountByAK chain inp.Address :: r.2⟩

/-! ## The consensus query family -/

/-- Go `RpcServ.DposCandidates` -/
def DposCandidates (_env : Env) (_req : Option DposRequest) : Reply DposReply :=
  ⟨none, none, []⟩

/-- Go `RpcServ.DposNominateRecords` -/
def DposNominateRecords (_env : Env) (_req : Option DposRequest) : Reply DposReply :=
  ⟨none, none, []⟩

/-- Go `RpcServ.DposNomineeRecords` -/
def DposNomineeRecords (_env : Env) (_req : Option DposRequest) : Reply DposReply :=
  ⟨none, none, []⟩

/-- Go `RpcServ.DposVoteRecords` -/
def DposVoteRecords (_env : Env) (_req : Option DposRequest) : Reply DposReply :=
  ⟨none, none, []⟩

/-- Go `RpcServ.DposVotedRecords` -/
def DposVotedRecords (_env : Env) (_req : Option DposRequest) : Reply DposReply :=
  ⟨none, none, []⟩

/-- Go `RpcServ.DposCheckResults` -/
def DposCheckResults (_env : Env) (_req : Option DposRequest) : Reply DposReply :=
  ⟨none, none, []⟩

/-- Go `RpcServ.DposStatus` -/
def DposStatus (_env : Env) (_req : Option DposRequest) : Reply DposReply :=
  ⟨none, none, []⟩

/-! ## A sample node, for the concrete instances -/

/-- Resolver of the sample node: chains `x` and `y` exist. -/
def sampleResolve (n : String) : Except Error Nat :=
  if n = "x" then .ok 1 else if n = "y" then .ok 2 else .error (.other "chain not exist")

/-- A sample node. Chain `x` serves balances, pre-execution (one unit of gas per
invocation), selection up to 1000, block `b1` and the accounts of `addr1`; its statistics
and trunk-tip readers fail. Chain `y` fails where `x` succeeds. -/
def sampleEnv : Env where
  NewChainHandle := fun n => (sampleResolve n).map (fun i => { id := i })
  SubmitTx := fun _ _ => none
  PreExec := fun h reqs _ _ =>
    if h.id = 1 then .ok { Response := reqs.map (fun r => r.MethodName), GasUsed := reqs.length }
    else .error (.other "pre exec failed")
  SelectUtxo := fun h addr n _ _ _ _ =>
    if h.id = 1 ∧ n ≤ 1000 then
      .ok { UtxoList := [{ Amount := "1000", ToAddr := addr, RefTxid := "t0", RefOffset := 0 }],
            TotalSelected := "1000" }
    else .error (.other "not enough utxo")
  engineGet := fun n => (sampleResolve n).map (fun i => { id := i })
  GetChains := ["x", "y"]
  PeerInfo := { Address := "node0", Peer := [{ Address := "node1" }, { Address := "node2" }] }
  QueryContractStatData := fun c =>
    if c.id = 2 then .ok (some { AccountCount := 1, ContractCount := 1 })
    else .error (.other "stat data error")
  QueryUtxoRecord := fun _ _ _ => .ok { OpenUtxo := none, LockedUtxo := none, FrozenUtxo := none }
  QueryAccountACL := fun _ _ => .ok none
  QueryContractMethodACL := fun _ _ _ => .ok none
  GetAccountContracts := fun c a =>
    if c.id = 1 ∧ a = "acc1" then
      .ok [{ ContractName := "counter", Txid := "t1", IsBanned := false }]
    else if c.id = 1 ∧ a = "acc2" then .ok []
    else .error (.other "account not found")
  QueryTx := fun _ _ => .error (.other "tx not found")
  GetBalance := fun c _ => if c.id = 1 then .ok "100" else .error (.other "balance error")
  GetFrozenBalance := fun c _ => if c.id = 1 then .ok "7" else .error (.other "balance error")
  GetBalanceDetail := fun c _ =>
    if c.id = 1 then .ok (some [{ Balance := "100", IsFrozen := false }])
    else .error (.other "balance error")
  QueryBlock := fun c b _ =>
    if c.id = 1 ∧ b = "b1" then
      .ok { Status := 1,
            Block := some { Blockid := "b1", Height := 1,
                            Transactions := some [{ Txid := "t1" }, { Txid := "t2" }] } }
    else .error (.other "block not found")
  QueryBlockByHeight := fun c h _ =>
    if c.id = 1 ∧ h = 1 then
      .ok { Status := 1,
            Block := some { Blockid := "b1", Height := 1,
                            Transactions := some [{ Txid := "t1" }, { Txid := "t2" }] } }
    else .error (.other "block not found")
  GetChainStatus := fun c =>
    if c.id = 1 then
      (some { LedgerMeta := some { RootBlockid := "b0", TipBlockid := "b1", TrunkHeight := 1 },
              Block := none, UtxoMeta := none }, none)
    else if c.id = 2 then (some { LedgerMeta := none, Block := none, UtxoMeta := none }, none)
    else (none, some (.other "status error"))
  IsTrunkTipBlock := fun c _ => if c.id = 2 then .ok true else .error (.other "tip error")
  GetAccountByAK := fun c a =>
    if c.id = 1 ∧ a = "addr1" then .ok (some ["acc1", "acc2", "acc3", "acc1"])
    else .error (.other "address not found")
  TxToXledger := fun t => some { Txid := t.Txid }
  ConvertInvokeReq := fun l =>
    .ok (l.map (fun r =>
      { ModuleName := r.ModuleName, ContractName := r.ContractName, MethodName := r.MethodName }))
  ConvertInvokeResp := fun r => some { Response := r.Response, GasUsed := r.GasUsed }
  UtxoListToXchain := fun l =>
    .ok (l.map (fun u =>
      { Amount := u.Amount, ToAddr := u.ToAddr, RefTxid := u.RefTxid, RefOffset := u.RefOffset }))
  defRespHeader := fun h =>
    match h with
    | none => { Logid := "", Error := .SUCCESS }
    | some h => { Logid := h.Logid, Error := .SUCCESS }
  ErrorEnum := fun _ => .code 1

/-- A pre-execution request with one invocation, on chain `bc`. -/
def sampleInvoke (bc : String) : InvokeRPCRequest :=
  { Header := none, Bcname := bc,
    Requests := [{ ModuleName := "wasm", ContractName := "counter", MethodName := "inc" }],
    Initiator := "addr1", AuthRequire := [] }

/-- A composite request on chain `x` declaring the total `total`, pre-executing on `bc`. -/
def sampleComposite (total : Int) (bc : String) : PreExecWithSelectUTXORequest :=
  { Header := none, Bcname := "x", Address := "addr1", TotalAmount := total,
    SignInfo := none, NeedLock := false, Request := some (sampleInvoke bc) }

/-- A selection request on chain `x` for `addr1`. -/
def sampleSelect (totalNeed : String) : UtxoInput :=
  { Header := none, Bcname := "x", Address := "addr1", Publickey := "", TotalNeed := totalNeed,
    UserSign := "", NeedLock := false }

/-- A balance request for `addr1` over the given chain names. -/
def sampleBalance (names : List String) : AddressStatus :=
  { Header := none, Address := "addr1",
    Bcs := names.map (fun n => { Bcname := n, Balance := "stale", Error := .code 9 }) }

/-- A balance-detail request for `addr1` over the given chain names. -/
def sampleDetail (names : List String) : AddressBalanceStatus :=
  { Header := none, Address := "addr1",
    Tfds := names.map (fun n => { Bcname := n, Tfd := some [], Error := .code 9 }) }

/-- The sample node with a status reader that fails on chain `y`: it hands back an error and
no status. -/
def sampleEnvStatusFails : Env :=
  { sampleEnv with
    GetChainStatus := fun c =>
      if c.id = 1 then sampleEnv.GetChainStatus c else (none, some (.other "status error")) }

/-- The request that `GetSystemStatus` builds for the chain-status handler. -/
def sampleStatusRequest (bc : String) : BCStatus :=
  { Header := none, Bcname := bc, Meta := none, Block := none, UtxoMeta := none }

/-! ## The response pointer -/

/-- C1 (fails on the code): at a request for chain `x` of the sample node, whose statistics
reader and trunk-tip reader fail, `QueryContractStatData` and `ConfirmBlockChainStatus`
return a `nil` response next to the error; the seven handlers of the consensus query family
return a `nil` response (and a `nil` error) whatever the request. -/
theorem C1_nil_responses :
    QueryContractStatData sampleEnv { Header := none, Bcname := "x" } =
      ⟨none, some (.other "stat data error"),
        [.engineGet "x", .QueryContractStatData { id := 1 }]⟩ ∧
    ConfirmBlockChainStatus sampleEnv
        { Header := none, Bcname := "x", Meta := none, Block := none, UtxoMeta := none } =
      ⟨none, some (.other "tip error"), [.engineGet "x", .IsTrunkTipBlock { id := 1 } ""]⟩ ∧
    (DposCandidates sampleEnv none).resp = none ∧
    (DposNominateRecords sampleEnv none).resp = none ∧
    (DposNomineeRecords sampleEnv none).resp = none ∧
    (DposVoteRecords sampleEnv none).resp = none ∧
    (DposVotedRecords sampleEnv none).resp = none ∧
    (DposCheckResults sampleEnv none).resp = none ∧
    (DposStatus sampleEnv none).resp = none := by
  decide

/-! ## Fan-out over chain slots -/

/-- The slot written by one iteration of `GetBalance` keeps its chain name and is either a
success with the reader's balance or a failure with an empty balance. -/
theorem GetBalance_body_slot (env : Env) (hEnum : ∀ e, env.ErrorEnum e ≠ .SUCCESS)
    (address : String) (slot : TokenDetail) :
    (GetBalance.body env address slot).1.Bcname = slot.Bcname ∧
    (((GetBalance.body env address slot).1.Error = .SUCCESS ∧
        ∃ chain, env.engineGet slot.Bcname = .ok chain ∧
          env.GetBalance chain address = .ok (GetBalance.body env address slot).1.Balance) ∨
      ((GetBalance.body env address slot).1.Error ≠ .SUCCESS ∧
        (GetBalance.body env address slot).1.Balance = "")) := by
  unfold GetBalance.body
  cases hget : env.engineGet slot.Bcname with
  | error e => simp
  | ok chain =>
    cases hbal : env.GetBalance chain address with
    | error e => simp [hbal, hEnum e]
    | ok b => simp [hbal]

/-- The slot written by one iteration of `GetFrozenBalance`, as for `GetBalance`. -/
theorem GetFrozenBalance_body_slot (env : Env) (hEnum : ∀ e, env.ErrorEnum e ≠ .SUCCESS)
    (address : String) (slot : TokenDetail) :
    (GetFrozenBalance.body env address slot).1.Bcname = slot.Bcname ∧
    (((GetFrozenBalance.body env address slot).1.Error = .SUCCESS ∧
        ∃ chain, env.engineGet slot.Bcname = .ok chain ∧
          env.GetFrozenBalance chain address =
            .ok (GetFrozenBalance.body env address slot).1.Balance) ∨
      ((GetFrozenBalance.body env address slot).1.Error ≠ .SUCCESS ∧
        (GetFrozenBalance.body env address slot).1.Balance = "")) := by
  unfold GetFrozenBalance.body
  cases hget : env.engineGet slot.Bcname with
  | error e => simp
  | ok chain =>
    cases hbal : env.GetFrozenBalance chain address with
    | error e => simp [hbal, hEnum e]
    | ok b => simp [hbal]

/-- The slot written by one iteration of `GetBalanceDetail`, as for `GetBalance`. -/
theorem GetBalanceDetail_body_slot (env : Env) (hEnum : ∀ e, env.ErrorEnum e ≠ .SUCCESS)
    (address : String) (slot : TokenFrozenDetails) :
    (GetBalanceDetail.body env address slot).1.Bcname = slot.Bcname ∧
    (((GetBalanceDetail.body env address slot).1.Error = .SUCCESS ∧
        ∃ chain, env.engineGet slot.Bcname = .ok chain ∧
          env.GetBalanceDetail chain address =
            .ok (GetBalanceDetail.body env address slot).1.Tfd) ∨
      ((GetBalanceDetail.body env address slot).1.Error ≠ .SUCCESS ∧
        (GetBalanceDetail.body env address slot).1.Tfd = none)) := by
  unfold GetBalanceDetail.body
  cases hget : env.engineGet slot.Bcname with
  | error e => simp
  | ok chain =>
    cases hbal : env.GetBalanceDetail chain address with
    | error e => simp [hbal, hEnum e]
    | ok b => simp [hbal]

/-- C2: with `ErrorEnum` mapping every error to a code other than `SUCCESS`, each of
`GetBalance`, `GetFrozenBalance` and `GetBalanceDetail` returns as many slots as the request
has; the slot at position `i` carries the chain name of the request's slot at `i`, and is
either `SUCCESS` with the value the reader returned for that chain and the address, or a
code other than `SUCCESS` with an empty value. -/
theorem C2_fanout_slots (env : Env) (hEnum : ∀ e, env.ErrorEnum e ≠ .SUCCESS)
    (inp : AddressStatus) (dinp : AddressBalanceStatus) :
    (∃ out, (GetBalance env inp).resp = some out ∧ out.Bcs.length = inp.Bcs.length ∧
      ∀ (i : Nat) (slot0 : TokenDetail), inp.Bcs[i]? = some slot0 →
        ∃ slot, out.Bcs[i]? = some slot ∧ slot.Bcname = slot0.Bcname ∧
          ((slot.Error = .SUCCESS ∧ ∃ chain, env.engineGet slot0.Bcname = .ok chain ∧
              env.GetBalance chain inp.Address = .ok slot.Balance) ∨
            (slot.Error ≠ .SUCCESS ∧ slot.Balance = ""))) ∧
    (∃ out, (GetFrozenBalance env inp).resp = some out ∧ out.Bcs.length = inp.Bcs.length ∧
      ∀ (i : Nat) (slot0 : TokenDetail), inp.Bcs[i]? = some slot0 →
        ∃ slot, out.Bcs[i]? = some slot ∧ slot.Bcname = slot0.Bcname ∧
          ((slot.Error = .SUCCESS ∧ ∃ chain, env.engineGet slot0.Bcname = .ok chain ∧
              env.GetFrozenBalance chain inp.Address = .ok slot.Balance) ∨
            (slot.Error ≠ .SUCCESS ∧ slot.Balance = ""))) ∧
    (∃ out, (GetBalanceDetail env dinp).resp = some out ∧
      out.Tfds.length = dinp.Tfds.length ∧
      ∀ (i : Nat) (slot0 : TokenFrozenDetails), dinp.Tfds[i]? = some slot0 →
        ∃ slot, out.Tfds[i]? = some slot ∧ slot.Bcname = slot0.Bcname ∧
          ((slot.Error = .SUCCESS ∧ ∃ chain, env.engineGet slot0.Bcname = .ok chain ∧
              env.GetBalanceDetail chain dinp.Address = .ok slot.Tfd) ∨
            (slot.Error ≠ .SUCCESS ∧ slot.Tfd = none))) := by
  refine ⟨⟨_, rfl, by simp, ?_⟩, ⟨_, rfl, by simp, ?_⟩, ⟨_, rfl, by simp, ?_⟩⟩
  · intro i slot0 h
    refine ⟨(GetBalance.body env inp.Address slot0).1, by simp [h], ?_⟩
    exact GetBalance_body_slot env hEnum inp.Address slot0
  · intro i slot0 h
    refine ⟨(GetFrozenBalance.body env inp.Address slot0).1, by simp [h], ?_⟩
    exact GetFrozenBalance_body_slot env hEnum inp.Address slot0
  · intro i slot0 h
    refine ⟨(GetBalanceDetail.body env dinp.Address slot0).1, by simp [h], ?_⟩
    exact GetBalanceDetail_body_slot env hEnum dinp.Address slot0

/-- C2 at the sample node, for the chains `x` (served), `y` (reader fails) and `z` (does not
exist): three slots come back from each handler. -/
theorem C2_fanout_slots_witness :
    (∀ e, sampleEnv.ErrorEnum e ≠ .SUCCESS) ∧
    (GetBalance sampleEnv (sampleBalance ["x", "y", "z"])).resp =
      some { Header := none, Address := "addr1",
             Bcs := [{ Bcname := "x", Balance := "100", Error := .SUCCESS },
                     { Bcname := "y", Balance := "", Error := .code 1 },
                     { Bcname := "z", Balance := "", Error := .BLOCKCHAIN_NOTEXIST }] } ∧
    ∃ out, (GetBalanceDetail sampleEnv (sampleDetail ["x", "y", "z"])).resp = some out ∧
      out.Tfds.length = (sampleDetail ["x", "y", "z"]).Tfds.length :=
  have h := C2_fanout_slots sampleEnv (fun _ => by simp [sampleEnv])
    (sampleBalance ["x", "y", "z"]) (sampleDetail ["x", "y", "z"])
  ⟨fun _ => by simp [sampleEnv], by decide,
    h.2.2.elim (fun out hout => ⟨out, hout.1, hout.2.1⟩)⟩

/-- C3: `GetBalance` returns a `nil` error; a slot whose chain name does not resolve comes
back as that slot with code `BLOCKCHAIN_NOTEXIST` and an empty balance, a slot whose chain
resolves and whose balance query succeeds comes back with code `SUCCESS` and the reader's
balance; and two slots with the same chain name, at any positions of any two requests for
the same address, come back with the same code and balance. -/
theorem C3_GetBalance_slots (env : Env) (inp : AddressStatus) :
    (GetBalance env inp).err = none ∧
    ∃ out, (GetBalance env inp).resp = some out ∧
      (∀ (i : Nat) (slot0 : TokenDetail), inp.Bcs[i]? = some slot0 →
        (∀ e, env.engineGet slot0.Bcname = .error e →
          out.Bcs[i]? = some { slot0 with Error := .BLOCKCHAIN_NOTEXIST, Balance := "" }) ∧
        (∀ chain b, env.engineGet slot0.Bcname = .ok chain →
          env.GetBalance chain inp.Address = .ok b →
          out.Bcs[i]? = some { slot0 with Error := .SUCCESS, Balance := b })) ∧
      (∀ (inp2 out2 : AddressStatus) (i j : Nat) (s1 s2 : TokenDetail),
        (GetBalance env inp2).resp = some out2 →
        inp2.Address = inp.Address → inp.Bcs[i]? = some s1 → inp2.Bcs[j]? = some s2 →
        s1.Bcname = s2.Bcname →
        ∃ r1 r2, out.Bcs[i]? = some r1 ∧ out2.Bcs[j]? = some r2 ∧
          r1.Error = r2.Error ∧ r1.Balance = r2.Balance) := by
  refine ⟨rfl, _, rfl, ?_, ?_⟩
  · intro i slot0 h
    constructor
    · intro e he
      simp [h, GetBalance.body, he]
    · intro chain b hc hb
      simp [h, GetBalance.body, hc, hb]
  · intro inp2 out2 i j s1 s2 hout haddr h1 h2 hname
    simp only [GetBalance, Option.some.injEq] at hout
    subst hout
    refine ⟨(GetBalance.body env inp.Address s1).1, (GetBalance.body env inp.Address s2).1,
      by simp [h1], by simp [h2, haddr], ?_⟩
    unfold GetBalance.body
    rw [hname]
    cases env.engineGet s2.Bcname with
    | error e => simp
    | ok chain =>
      cases env.GetBalance chain inp.Address with
      | error e => simp
      | ok b => simp

/-- C3 at the sample node, for the chains `x` and `nonexistent`: no call-level error, slot 0
holds the balance with `SUCCESS`, slot 1 is emptied with `BLOCKCHAIN_NOTEXIST`. -/
theorem C3_GetBalance_slots_witness :
    (GetBalance sampleEnv (sampleBalance ["x", "nonexistent"])).err = none ∧
    (GetBalance sampleEnv (sampleBalance ["x", "nonexistent"])).resp =
      some { Header := none, Address := "addr1",
             Bcs := [{ Bcname := "x", Balance := "100", Error := .SUCCESS },
                     { Bcname := "nonexistent", Balance := "",
                       Error := .BLOCKCHAIN_NOTEXIST }] } :=
  ⟨(C3_GetBalance_slots sampleEnv (sampleBalance ["x", "nonexistent"])).1, by decide⟩

/-! ## Selection -/

/-- C4: `SelectUTXO` on a request with a chain name and an amount string that is not empty
and that `SetString` rejects returns the default (empty) output with `ErrParameter`, and
makes no call at all: neither the resolver nor the selection of the chain handle. -/
theorem C4_SelectUTXO_unparseable (env : Env) (req : UtxoInput) (hbc : req.Bcname ≠ "")
    (hneed : req.TotalNeed ≠ "") (hparse : SetString10 req.TotalNeed = none) :
    SelectUTXO env (some req) =
      ⟨some { Header := none, UtxoList := [], TotalSelected := "" }, some .ErrParameter, []⟩ := by
  simp [SelectUTXO, hbc, hneed, hparse]

/-- C4 at the amount string `abc`. -/
theorem C4_SelectUTXO_unparseable_witness :
    SetString10 "abc" = none ∧
    SelectUTXO sampleEnv (some (sampleSelect "abc")) =
      ⟨some { Header := none, UtxoList := [], TotalSelected := "" }, some .ErrParameter, []⟩ :=
  ⟨by decide,
    C4_SelectUTXO_unparseable sampleEnv (sampleSelect "abc") (by decide) (by decide)
      (by decide)⟩

/-! ## Pre-execution with selection -/

/-- The function `wrapInt64` is the identity on the `int64` range. -/
theorem wrapInt64_of_range (x : Int) (hlo : -(2 ^ 63) ≤ x) (hhi : x < 2 ^ 63) :
    wrapInt64 x = x := by
  unfold wrapInt64
  omega

/-- The handler `PreExec` calls no handler of the server. -/
theorem PreExec_calls_no_selection (env : Env) (r : Option InvokeRPCRequest)
    (u : Option UtxoInput) : Call.handlerSelectUTXO u ∉ (PreExec env r).calls := by
  unfold PreExec
  repeat' split
  all_goals simp

/-- The handler `SelectUTXO` calls no handler of the server. -/
theorem SelectUTXO_calls_no_selection (env : Env) (r : Option UtxoInput)
    (u : Option UtxoInput) : Call.handlerSelectUTXO u ∉ (SelectUTXO env r).calls := by
  unfold SelectUTXO
  repeat' split
  all_goals simp

/-- The composite on a request that passes its validation, by the outcome of the
pre-execution and of the selection. -/
theorem PreExecWithSelectUTXO_valid (env : Env) (req : PreExecWithSelectUTXORequest)
    (hbc : req.Bcname ≠ "") (hlen : 1 ≤ requestLen req.Request) :
    PreExecWithSelectUTXO env (some req) =
      match (PreExec env req.Request).err with
      | some err =>
        ⟨some { Header := none, Bcname := "", Response := none, UtxoOutput := none }, some err,
          .handlerPreExec req.Request :: (PreExec env req.Request).calls⟩
      | none =>
        if wrapInt64 (req.TotalAmount + gasUsedOf (PreExec env req.Request).resp) < 1 then
          ⟨some { Header := none, Bcname := "", Response := none, UtxoOutput := none }, none,
            .handlerPreExec req.Request :: (PreExec env req.Request).calls⟩
        else
          match (SelectUTXO env (some (mkUtxoInput req
              (wrapInt64 (req.TotalAmount + gasUsedOf (PreExec env req.Request).resp))))).err with
          | some err =>
            ⟨some { Header := none, Bcname := "", Response := none, UtxoOutput := none },
              some err,
              .handlerPreExec req.Request :: (PreExec env req.Request).calls ++
                .handlerSelectUTXO (some (mkUtxoInput req
                  (wrapInt64 (req.TotalAmount + gasUsedOf (PreExec env req.Request).resp)))) ::
                (SelectUTXO env (some (mkUtxoInput req
                  (wrapInt64 (req.TotalAmount +
                    gasUsedOf (PreExec env req.Request).resp))))).calls⟩
          | none =>
            ⟨some { Header := none, Bcname := req.Bcname,
                    Response := responseOf (PreExec env req.Request).resp,
                    UtxoOutput := (SelectUTXO env (some (mkUtxoInput req
                      (wrapInt64 (req.TotalAmount +
                        gasUsedOf (PreExec env req.Request).resp))))).resp.map
                      (fun o => { o with Header := req.Header }) },
              none,
              .handlerPreExec req.Request :: (PreExec env req.Request).calls ++
                .handlerSelectUTXO (some (mkUtxoInput req
                  (wrapInt64 (req.TotalAmount + gasUsedOf (PreExec env req.Request).resp)))) ::
                (SelectUTXO env (some (mkUtxoInput req
                  (wrapInt64 (req.TotalAmount +
                    gasUsedOf (PreExec env req.Request).resp))))).calls⟩ := by
  have hlen2 : ¬ requestLen req.Request < 1 := by omega
  simp only [PreExecWithSelectUTXO, hbc, hlen2, or_self, if_false]

/-- C5 (refuted as stated): on the sample node the declared total `2^63 - 1` and the
consumed gas `1` are both `int64` values and their exact sum `2^63` is at least 1, yet the
`int64` sum wraps below 1: the composite returns the default response without error and
never invokes the selection handler. -/
theorem C5_counterexample :
    isInt64 (2 ^ 63 - 1) ∧ isInt64 1 ∧ (1 : Int) ≤ (2 ^ 63 - 1) + 1 ∧
    (PreExec sampleEnv (sampleComposite (2 ^ 63 - 1) "x").Request).err = none ∧
    gasUsedOf (PreExec sampleEnv (sampleComposite (2 ^ 63 - 1) "x").Request).resp = 1 ∧
    PreExecWithSelectUTXO sampleEnv (some (sampleComposite (2 ^ 63 - 1) "x")) =
      ⟨some { Header := none, Bcname := "", Response := none, UtxoOutput := none }, none,
        [.handlerPreExec (some (sampleInvoke "x")), .NewChainHandle "x",
          .PreExec { id := 1 }
            [{ ModuleName := "wasm", ContractName := "counter", MethodName := "inc" }]
            "addr1" []]⟩ ∧
    ¬ ∃ u, Call.handlerSelectUTXO u ∈
      (PreExecWithSelectUTXO sampleEnv (some (sampleComposite (2 ^ 63 - 1) "x"))).calls := by
  refine ⟨by unfold isInt64; omega, by unfold isInt64; omega, by omega, by decide, by decide,
    by decide, ?_⟩
  have h : (PreExecWithSelectUTXO sampleEnv (some (sampleComposite (2 ^ 63 - 1) "x"))).calls =
      [.handlerPreExec (some (sampleInvoke "x")), .NewChainHandle "x",
        .PreExec { id := 1 }
          [{ ModuleName := "wasm", ContractName := "counter", MethodName := "inc" }]
          "addr1" []] := by decide
  rw [h]
  simp

/-- C5 (amended): for a request that passes the composite's validation and whose
pre-execution succeeds, when the exact sum of the declared total and the consumed gas is at
least 1 and below `2^63`, the selection handler is invoked, and every invocation of it among
the calls of the composite receives a request that carries the decimal rendering of that
exact sum as its amount-needed string (next to the chain name, address and lock flag of the
composite request). -/
theorem C5_selection_amount (env : Env) (req : PreExecWithSelectUTXORequest)
    (hbc : req.Bcname ≠ "") (hlen : 1 ≤ requestLen req.Request)
    (hpre : (PreExec env req.Request).err = none)
    (hlo : 1 ≤ req.TotalAmount + gasUsedOf (PreExec env req.Request).resp)
    (hhi : req.TotalAmount + gasUsedOf (PreExec env req.Request).resp < 2 ^ 63) :
    (∃ inp : UtxoInput,
      Call.handlerSelectUTXO (some inp) ∈ (PreExecWithSelectUTXO env (some req)).calls) ∧
    ∀ u : Option UtxoInput,
      Call.handlerSelectUTXO u ∈ (PreExecWithSelectUTXO env (some req)).calls →
      ∃ inp : UtxoInput, u = some inp ∧
        inp.TotalNeed =
          bigIntString (req.TotalAmount + gasUsedOf (PreExec env req.Request).resp) ∧
        inp.Bcname = req.Bcname ∧ inp.Address = req.Address ∧ inp.NeedLock = req.NeedLock := by
  have hw : wrapInt64 (req.TotalAmount + gasUsedOf (PreExec env req.Request).resp) =
      req.TotalAmount + gasUsedOf (PreExec env req.Request).resp :=
    wrapInt64_of_range _ (by omega) hhi
  have hnot : ¬ req.TotalAmount + gasUsedOf (PreExec env req.Request).resp < 1 := by omega
  have hpre1 := PreExec_calls_no_selection env req.Request
  have hsel1 := SelectUTXO_calls_no_selection env
    (some (mkUtxoInput req (req.TotalAmount + gasUsedOf (PreExec env req.Request).resp)))
  rw [PreExecWithSelectUTXO_valid env req hbc hlen, hpre]
  simp only [hw, hnot, if_false]
  constructor
  · refine ⟨mkUtxoInput req (req.TotalAmount + gasUsedOf (PreExec env req.Request).resp), ?_⟩
    split <;> simp
  · intro u hu
    refine ⟨mkUtxoInput req (req.TotalAmount + gasUsedOf (PreExec env req.Request).resp),
      ?_, rfl, rfl, rfl, rfl⟩
    split at hu <;> simp [hpre1, hsel1] at hu <;> exact hu

/-- C5 (amended) on the sample node, declared total 99 and gas 1: the selection handler is
invoked and receives the amount string `100`. -/
theorem C5_selection_amount_witness :
    (1 : Int) ≤ 99 + 1 ∧ (99 : Int) + 1 < 2 ^ 63 ∧
    (∃ inp : UtxoInput, Call.handlerSelectUTXO (some inp) ∈
      (PreExecWithSelectUTXO sampleEnv (some (sampleComposite 99 "x"))).calls) ∧
    ∀ u : Option UtxoInput,
      Call.handlerSelectUTXO u ∈
        (PreExecWithSelectUTXO sampleEnv (some (sampleComposite 99 "x"))).calls →
      ∃ inp : UtxoInput, u = some inp ∧ inp.TotalNeed = "100" ∧
        inp.Bcname = "x" ∧ inp.Address = "addr1" ∧ inp.NeedLock = false :=
  have h := C5_selection_amount sampleEnv (sampleComposite 99 "x") (by decide) (by decide)
    (by decide) (by decide) (by decide)
  ⟨by decide, by decide, h.1, h.2⟩

/-- C6 (fails on the code): on the sample node, declared total `-1` and consumed gas `1` sum
to 0. The pre-execution succeeds with the invocation results, and the composite returns no
error and invokes no selection, but the response it returns is the empty default: it
carries neither the chain name nor the invocation results of the pre-execution. -/
theorem C6_preexec_response_dropped :
    PreExec sampleEnv (sampleComposite (-1) "x").Request =
      ⟨some { Header := none, Bcname := "x",
              Response := some { Response := ["inc"], GasUsed := 1 } },
        none,
        [.NewChainHandle "x",
          .PreExec { id := 1 }
            [{ ModuleName := "wasm", ContractName := "counter", MethodName := "inc" }]
            "addr1" []]⟩ ∧
    PreExecWithSelectUTXO sampleEnv (some (sampleComposite (-1) "x")) =
      ⟨some { Header := none, Bcname := "", Response := none, UtxoOutput := none }, none,
        [.handlerPreExec (some (sampleInvoke "x")), .NewChainHandle "x",
          .PreExec { id := 1 }
            [{ ModuleName := "wasm", ContractName := "counter", MethodName := "inc" }]
            "addr1" []]⟩ := by
  decide

/-- C7: on a request that passes the composite's validation (so that the pre-execution
handler is invoked), a pre-execution that fails with `e` makes the composite return `e` with
the empty default response and without invoking selection; and when the pre-execution
succeeds and the selection handler, invoked on the request the composite builds, fails with
`e`, the composite returns `e` with the empty default response. -/
theorem C7_composite_failures (env : Env) (req : PreExecWithSelectUTXORequest)
    (hbc : req.Bcname ≠ "") (hlen : 1 ≤ requestLen req.Request) :
    (∀ e, (PreExec env req.Request).err = some e →
      (PreExecWithSelectUTXO env (some req)).resp =
        some { Header := none, Bcname := "", Response := none, UtxoOutput := none } ∧
      (PreExecWithSelectUTXO env (some req)).err = some e ∧
      ∀ u, Call.handlerSelectUTXO u ∉ (PreExecWithSelectUTXO env (some req)).calls) ∧
    (∀ e, (PreExec env req.Request).err = none →
      1 ≤ wrapInt64 (req.TotalAmount + gasUsedOf (PreExec env req.Request).resp) →
      (SelectUTXO env (some (mkUtxoInput req
        (wrapInt64 (req.TotalAmount + gasUsedOf (PreExec env req.Request).resp))))).err =
          some e →
      (PreExecWithSelectUTXO env (some req)).resp =
        some { Header := none, Bcname := "", Response := none, UtxoOutput := none } ∧
      (PreExecWithSelectUTXO env (some req)).err = some e ∧
      Call.handlerSelectUTXO (some (mkUtxoInput req
        (wrapInt64 (req.TotalAmount + gasUsedOf (PreExec env req.Request).resp)))) ∈
        (PreExecWithSelectUTXO env (some req)).calls) := by
  have hpre1 := PreExec_calls_no_selection env req.Request
  rw [PreExecWithSelectUTXO_valid env req hbc hlen]
  constructor
  · intro e he
    simp [he, hpre1]
  · intro e hpre htot hsel
    have hnot : ¬ wrapInt64 (req.TotalAmount + gasUsedOf (PreExec env req.Request).resp) < 1 := by
      omega
    simp [hpre, hnot, hsel]

/-- C7 on the sample node: pre-execution on chain `y` fails, and the composite returns that
error; pre-execution on chain `x` succeeds and the selection of 5001 fails, and the
composite returns the selection's error; both with the empty default response. -/
theorem C7_composite_failures_witness :
    ((PreExec sampleEnv (sampleComposite 5 "y").Request).err =
        some (.other "pre exec failed") ∧
      (PreExecWithSelectUTXO sampleEnv (some (sampleComposite 5 "y"))).resp =
        some { Header := none, Bcname := "", Response := none, UtxoOutput := none } ∧
      (PreExecWithSelectUTXO sampleEnv (some (sampleComposite 5 "y"))).err =
        some (.other "pre exec failed")) ∧
    ((PreExec sampleEnv (sampleComposite 5000 "x").Request).err = none ∧
      (PreExecWithSelectUTXO sampleEnv (some (sampleComposite 5000 "x"))).resp =
        some { Header := none, Bcname := "", Response := none, UtxoOutput := none } ∧
      (PreExecWithSelectUTXO sampleEnv (some (sampleComposite 5000 "x"))).err =
        some (.other "not enough utxo")) :=
  have h1 := (C7_composite_failures sampleEnv (sampleComposite 5 "y") (by decide)
    (by decide)).1 (.other "pre exec failed") (by decide)
  have h2 := (C7_composite_failures sampleEnv (sampleComposite 5000 "x") (by decide)
    (by decide)).2 (.other "not enough utxo") (by decide) (by decide) (by decide)
  ⟨⟨by decide, h1.1, h1.2.1⟩, ⟨by decide, h2.1, h2.2.1⟩⟩

/-! ## Address, accounts, contracts -/

/-- The entries after `m[k] = v`, for a map with one entry per key. -/
theorem GoMap_mem_setEntries (k : String) (v : ContractList) :
    ∀ (es : List (String × ContractList)), (es.map (fun e => e.1)).Nodup →
      ∀ (a : String) (w : ContractList),
        (a, w) ∈ GoMap.setEntries k v es ↔ (a = k ∧ w = v) ∨ (a ≠ k ∧ (a, w) ∈ es)
  | [], _, a, w => by simp [GoMap.setEntries]
  | (k1, v1) :: rest, hnd, a, w => by
    have hnd2 : k1 ∉ rest.map (fun e => e.1) ∧ (rest.map (fun e => e.1)).Nodup := by
      simpa using hnd
    by_cases hk : k1 = k
    · subst hk
      have hrest : (a, w) ∈ rest → a ≠ k1 := by
        intro hm heq
        subst heq
        exact hnd2.1 (List.mem_map.mpr ⟨(a, w), hm, rfl⟩)
      simp only [GoMap.setEntries, if_true, List.mem_cons, Prod.mk.injEq]
      constructor
      · rintro (h | h)
        · exact Or.inl h
        · exact Or.inr ⟨hrest h, Or.inr h⟩
      · rintro (h | ⟨hne, h | h⟩)
        · exact Or.inl h
        · exact absurd h.1 hne
        · exact Or.inr h
    · have ih := GoMap_mem_setEntries k v rest hnd2.2 a w
      simp only [GoMap.setEntries, hk, if_false, List.mem_cons, Prod.mk.injEq, ih]
      constructor
      · rintro (⟨h1, h2⟩ | h | h)
        · exact Or.inr ⟨by rw [h1]; exact hk, Or.inl ⟨h1, h2⟩⟩
        · exact Or.inl h
        · exact Or.inr ⟨h.1, Or.inr h.2⟩
      · rintro (h | ⟨hne, h | h⟩)
        · exact Or.inr (Or.inl h)
        · exact Or.inl h
        · exact Or.inr (Or.inr ⟨hne, h⟩)

/-- The keys after `m[k] = v`: those of the map, and `k`. -/
theorem GoMap_mem_keys_setEntries (k : String) (v : ContractList) :
    ∀ (es : List (String × ContractList)) (a : String),
      a ∈ (GoMap.setEntries k v es).map (fun e => e.1) ↔ a = k ∨ a ∈ es.map (fun e => e.1)
  | [], a => by simp [GoMap.setEntries]
  | (k1, v1) :: rest, a => by
    have ih := GoMap_mem_keys_setEntries k v rest a
    by_cases hk : k1 = k
    · subst hk
      simp [GoMap.setEntries]
    · simp only [GoMap.setEntries, hk, if_false, List.map_cons, List.mem_cons, ih]
      tauto

/-- Writing to a map with one entry per key leaves one entry per key. -/
theorem GoMap_nodup_setEntries (k : String) (v : ContractList) :
    ∀ (es : List (String × ContractList)), (es.map (fun e => e.1)).Nodup →
      ((GoMap.setEntries k v es).map (fun e => e.1)).Nodup
  | [], _ => by simp [GoMap.setEntries]
  | (k1, v1) :: rest, hnd => by
    have hnd2 : k1 ∉ rest.map (fun e => e.1) ∧ (rest.map (fun e => e.1)).Nodup := by
      simpa using hnd
    by_cases hk : k1 = k
    · subst hk
      simpa [GoMap.setEntries] using hnd
    · have ih := GoMap_nodup_setEntries k v rest hnd2.2
      have hmem := GoMap_mem_keys_setEntries k v rest k1
      simp only [GoMap.setEntries, hk, if_false, List.map_cons, List.nodup_cons]
      refine ⟨?_, ih⟩
      rw [hmem]
      rintro (h | h)
      · exact hk h
      · exact hnd2.1 h

/-- The map after the loop of `GetAddressContracts`: one entry per key, and an entry is in
it exactly when the loop wrote it for an account of the list with at least one contract, or
it was there before and no such account has its key. -/
theorem GetAddressContracts_loop_entries (env : Env) (chain : Chain) :
    ∀ (l : List String) (m : GoMap), m.keys.Nodup →
      (GetAddressContracts.loop env chain l m).1.keys.Nodup ∧
      ∀ (a : String) (v : ContractList),
        (a, v) ∈ (GetAddressContracts.loop env chain l m).1.entries ↔
          ((a ∈ l ∧ env.GetAccountContracts chain a = .ok v.ContractStatus ∧
              0 < v.ContractStatus.length) ∨
            ((a, v) ∈ m.entries ∧
              ¬ (a ∈ l ∧ ∃ cs, env.GetAccountContracts chain a = .ok cs ∧ 0 < cs.length)))
  | [], m, hnd => by simp [GetAddressContracts.loop, hnd]
  | account :: rest, m, hnd => by
    cases hget : env.GetAccountContracts chain account with
    | error e =>
      have ih := GetAddressContracts_loop_entries env chain rest m hnd
      simp only [GetAddressContracts.loop, hget]
      refine ⟨ih.1, fun a v => ?_⟩
      rw [ih.2 a v]
      by_cases ha : a = account
      · subst ha
        simp [hget]
      · simp [ha]
    | ok contracts =>
      by_cases hlen : 0 < contracts.length
      · have hnd1 : (m.set account { ContractStatus := contracts }).keys.Nodup :=
          GoMap_nodup_setEntries account _ m.entries hnd
        have ih := GetAddressContracts_loop_entries env chain rest
          (m.set account { ContractStatus := contracts }) hnd1
        have hset := GoMap_mem_setEntries account { ContractStatus := contracts } m.entries hnd
        simp only [GetAddressContracts.loop, hget, gt_iff_lt, hlen, if_true]
        refine ⟨ih.1, fun a v => ?_⟩
        rw [ih.2 a v]
        simp only [GoMap.set, hset a v]
        by_cases ha : a = account
        · subst ha
          simp only [hget, List.mem_cons, true_or, true_and, Except.ok.injEq]
          have hex : ∃ cs : List ContractStatus, contracts = cs ∧ 0 < cs.length :=
            ⟨contracts, rfl, hlen⟩
          have hv : v = { ContractStatus := contracts } ↔ contracts = v.ContractStatus := by
            cases v
            simp only [ContractList.mk.injEq]
            exact eq_comm
          constructor
          · rintro (⟨_, h1, h2⟩ | ⟨h | ⟨hne, _⟩, _⟩)
            · exact Or.inl ⟨h1, h2⟩
            · have h1 := hv.mp h
              exact Or.inl ⟨h1, h1 ▸ hlen⟩
            · exact absurd rfl hne
          · rintro (⟨h1, h2⟩ | ⟨_, hn⟩)
            · by_cases hr : a ∈ rest
              · exact Or.inl ⟨hr, h1, h2⟩
              · exact Or.inr ⟨Or.inl (hv.mpr h1), fun h => hr h.1⟩
            · exact absurd hex hn
        · simp [ha]
      · have ih := GetAddressContracts_loop_entries env chain rest m hnd
        simp only [GetAddressContracts.loop, hget, gt_iff_lt, hlen, if_false]
        refine ⟨ih.1, fun a v => ?_⟩
        rw [ih.2 a v]
        by_cases ha : a = account
        · subst ha
          simp only [hget, List.mem_cons, true_or, true_and, Except.ok.injEq]
          have hnex : ¬ ∃ cs : List ContractStatus, contracts = cs ∧ 0 < cs.length := by
            rintro ⟨cs, rfl, h⟩
            exact hlen h
          constructor
          · rintro (⟨_, h1, h2⟩ | ⟨hm, _⟩)
            · exact absurd (h1 ▸ h2) hlen
            · exact Or.inr ⟨hm, hnex⟩
          · rintro (⟨h1, h2⟩ | ⟨hm, _⟩)
            · exact absurd (h1 ▸ h2) hlen
            · exact Or.inr ⟨hm, fun h => hnex h.2⟩
        · simp [ha]

/-- C8: when the chain resolves and the account lookup succeeds with the account list
`accounts` (a `nil` list counts as empty), `GetAddressContracts` returns no error, and its
output map holds the entry `a ↦ v` exactly when `a` is in the account list, the contract
lookup for `a` succeeded with the list `v.ContractStatus`, and that list has at least one
contract; the map has at most one entry per key. -/
theorem C8_GetAddressContracts_mapping (env : Env) (inp : AddressContractsRequest)
    (chain : Chain) (accounts : Option (List String))
    (hres : env.engineGet inp.Bcname = .ok chain)
    (hacc : env.GetAccountByAK chain inp.Address = .ok accounts) :
    (GetAddressContracts env inp).err = none ∧
    ∃ out, (GetAddressContracts env inp).resp = some out ∧
      (∀ (a : String) (v : ContractList),
        (∃ m, out.Contracts = some m ∧ (a, v) ∈ m.entries) ↔
          (a ∈ accounts.getD [] ∧ env.GetAccountContracts chain a = .ok v.ContractStatus ∧
            0 < v.ContractStatus.length)) ∧
      ∀ m, out.Contracts = some m → m.keys.Nodup := by
  cases accounts with
  | none => simp [GetAddressContracts, hres, hacc]
  | some l =>
    have h := GetAddressContracts_loop_entries env chain l { entries := [] }
      (by simp [GoMap.keys])
    simp only [GetAddressContracts, hres, hacc, Option.getD_some, true_and]
    refine ⟨_, rfl, fun a v => ?_, fun m hm => ?_⟩
    · simp only [Option.some.injEq, exists_eq_left']
      rw [h.2 a v]
      simp
    · simp only [Option.some.injEq] at hm
      subst hm
      exact h.1

/-- C8 on the sample node: of the accounts `acc1, acc2, acc3, acc1` of `addr1`, `acc2` has
no contract and the lookup of `acc3` fails; the map holds the single entry of `acc1`. -/
theorem C8_GetAddressContracts_mapping_witness :
    (GetAddressContracts sampleEnv
        { Header := none, Bcname := "x", Address := "addr1", NeedContent := false }).err =
      none ∧
    (GetAddressContracts sampleEnv
        { Header := none, Bcname := "x", Address := "addr1", NeedContent := false }).resp =
      some { Header := { Logid := "", Error := .SUCCESS },
             Contracts := some { entries :=
               [("acc1", { ContractStatus :=
                  [{ ContractName := "counter", Txid := "t1", IsBanned := false }] })] } } :=
  ⟨(C8_GetAddressContracts_mapping sampleEnv
      { Header := none, Bcname := "x", Address := "addr1", NeedContent := false } { id := 1 }
      (some ["acc1", "acc2", "acc3", "acc1"]) (by rfl) (by rfl)).1, by decide⟩

/-! ## Blocks -/

/-- C9: when the chain resolves and the block query fails, `GetBlock` returns a response
without block data and a `nil` error: the error of the query is not propagated. -/
theorem C9_GetBlock_not_found (env : Env) (inp : BlockID) (chain : Chain) (e : Error)
    (hres : env.engineGet inp.Bcname = .ok chain)
    (hblk : env.QueryBlock chain inp.Blockid true = .error e) :
    (GetBlock env inp).err = none ∧
    ∃ out, (GetBlock env inp).resp = some out ∧ out.Block = none ∧
      out.Header = env.defRespHeader inp.Header := by
  simp [GetBlock, hres, hblk]

/-- C9 on the sample node, for the block id `b2` that chain `x` does not have. -/
theorem C9_GetBlock_not_found_witness :
    sampleEnv.QueryBlock { id := 1 } "b2" true = .error (.other "block not found") ∧
    (GetBlock sampleEnv
      { Header := none, Bcname := "x", Blockid := "b2", NeedContent := true }).err = none ∧
    ∃ out, (GetBlock sampleEnv
        { Header := none, Bcname := "x", Blockid := "b2", NeedContent := true }).resp =
      some out ∧ out.Block = none ∧ out.Header = sampleEnv.defRespHeader none :=
  ⟨by rfl,
    C9_GetBlock_not_found sampleEnv
      { Header := none, Bcname := "x", Blockid := "b2", NeedContent := true } { id := 1 }
      (.other "block not found") (by rfl) (by rfl)⟩

/-! ## The empty chain name -/

/-- C10 (refuted as stated): on the sample node `QueryTx` with an empty chain name calls the
chain resolver with that name and returns the resolver's error under the header code
`BLOCKCHAIN_NOTEXIST`; it does not return the parameter error without calling anything. -/
theorem C10_counterexample :
    QueryTx sampleEnv
        { Header := none, Bcname := "", Txid := "t1", Status := 0, Distance := 0, Tx := none } =
      ⟨some { Header := some { Logid := "", Error := .BLOCKCHAIN_NOTEXIST }, Bcname := "",
              Txid := "", Status := 0, Distance := 0, Tx := none },
        some (.other "chain not exist"), [.engineGet ""]⟩ ∧
    ¬ ((QueryTx sampleEnv
          { Header := none, Bcname := "", Txid := "t1", Status := 0, Distance := 0,
            Tx := none }).err = some .ErrParameter ∧
        ∀ c ∈ (QueryTx sampleEnv
          { Header := none, Bcname := "", Txid := "t1", Status := 0, Distance := 0,
            Tx := none }).calls, c.isResolver = false ∧ c.isAccess = false) := by
  decide

/-- C10 (amended): none of the ten simple query handlers validates the chain name. When
the resolver fails with `e` for the empty name, each of them, on a request with an empty
chain name, calls the resolver with that name and nothing else, and returns `e` with a
response that is not `nil` and whose header carries the code `BLOCKCHAIN_NOTEXIST`. -/
theorem C10_empty_chain_name (env : Env) (e : Error) (hres : env.engineGet "" = .error e)
    (tx : TxStatus) (bid : BlockID) (bh : BlockHeight) (bcs : BCStatus) (acl : AclStatus)
    (gac : GetAccountContractsRequest) (ak : AK2AccountRequest)
    (csd : ContractStatDataRequest) (ur : UtxoRecordDetails) :
    (QueryTx env { tx with Bcname := "" } =
      ⟨some { Header := some (setHeaderError (env.defRespHeader tx.Header) .BLOCKCHAIN_NOTEXIST),
              Bcname := "", Txid := "", Status := 0, Distance := 0, Tx := none },
        some e, [.engineGet ""]⟩) ∧
    (GetBlock env { bid with Bcname := "" } =
      ⟨some { Header := setHeaderError (env.defRespHeader bid.Header) .BLOCKCHAIN_NOTEXIST,
              Bcname := "", Blockid := "", Status := 0, Block := none },
        some e, [.engineGet ""]⟩) ∧
    (GetBlockByHeight env { bh with Bcname := "" } =
      ⟨some { Header := setHeaderError (env.defRespHeader bh.Header) .BLOCKCHAIN_NOTEXIST,
              Bcname := "", Blockid := "", Status := 0, Block := none },
        some e, [.engineGet ""]⟩) ∧
    (GetBlockChainStatus env { bcs with Bcname := "" } =
      some ⟨some
          { Header := some (setHeaderError (env.defRespHeader bcs.Header) .BLOCKCHAIN_NOTEXIST),
            Bcname := "", Meta := none, Block := none, UtxoMeta := none },
        some e, [.engineGet ""]⟩) ∧
    (ConfirmBlockChainStatus env { bcs with Bcname := "" } =
      ⟨some { Header := setHeaderError (env.defRespHeader bcs.Header) .BLOCKCHAIN_NOTEXIST,
              IsTrunkTip := false },
        some e, [.engineGet ""]⟩) ∧
    (QueryACL env { acl with Bcname := "" } =
      ⟨some
          { Header := some (setHeaderError (env.defRespHeader acl.Header) .BLOCKCHAIN_NOTEXIST),
            Bcname := "", AccountName := "", ContractName := "", MethodName := "",
            Confirmed := false, Acl := none },
        some e, [.engineGet ""]⟩) ∧
    (GetAccountContracts env { gac with Bcname := "" } =
      ⟨some { Header := setHeaderError (env.defRespHeader gac.Header) .BLOCKCHAIN_NOTEXIST,
              ContractsStatus := [] },
        some e, [.engineGet ""]⟩) ∧
    (GetAccountByAK env { ak with Bcname := "" } =
      ⟨some { Header := setHeaderError (env.defRespHeader ak.Header) .BLOCKCHAIN_NOTEXIST,
              Bcname := "", Account := [] },
        some e, [.engineGet ""]⟩) ∧
    (QueryContractStatData env { csd with Bcname := "" } =
      ⟨some { Header := setHeaderError (env.defRespHeader csd.Header) .BLOCKCHAIN_NOTEXIST,
              Bcname := "", Data := none },
        some e, [.engineGet ""]⟩) ∧
    (QueryUtxoRecord env { ur with Bcname := "" } =
      ⟨some
          { Header := some (setHeaderError (env.defRespHeader ur.Header) .BLOCKCHAIN_NOTEXIST),
            Bcname := "", AccountName := "", OpenUtxoRecord := none,
            LockedUtxoRecord := none, FrozenUtxoRecord := none, DisplayCount := 0 },
        some e, [.engineGet ""]⟩) := by
  refine ⟨?_, ?_, ?_, ?_, ?_, ?_, ?_, ?_, ?_, ?_⟩
  · simp [QueryTx, hres]
  · simp [GetBlock, hres]
  · simp [GetBlockByHeight, hres]
  · simp [GetBlockChainStatus, hres]
  · simp [ConfirmBlockChainStatus, hres]
  · simp [QueryACL, hres]
  · simp [GetAccountContracts, hres]
  · simp [GetAccountByAK, hres]
  · simp [QueryContractStatData, hres]
  · simp [QueryUtxoRecord, hres]

/-- C10 (amended) on the sample node, which has no chain with an empty name, at `QueryTx`
and `GetBlockByHeight`. -/
theorem C10_empty_chain_name_witness :
    sampleEnv.engineGet "" = .error (.other "chain not exist") ∧
    (QueryTx sampleEnv
      { Header := none, Bcname := "", Txid := "t1", Status := 0, Distance := 0,
        Tx := none }).calls = [.engineGet ""] ∧
    (GetBlockByHeight sampleEnv { Header := none, Bcname := "", Height := 1 }).err =
      some (.other "chain not exist") :=
  have h := C10_empty_chain_name sampleEnv (.other "chain not exist") (by rfl)
    { Header := none, Bcname := "zz", Txid := "t1", Status := 0, Distance := 0, Tx := none }
    { Header := none, Bcname := "zz", Blockid := "b1", NeedContent := true }
    { Header := none, Bcname := "zz", Height := 1 }
    { Header := none, Bcname := "zz", Meta := none, Block := none, UtxoMeta := none }
    { Header := none, Bcname := "zz", AccountName := "", ContractName := "", MethodName := "",
      Confirmed := false, Acl := none }
    { Header := none, Bcname := "zz", Account := "acc1" }
    { Header := none, Bcname := "zz", Address := "addr1" }
    { Header := none, Bcname := "zz" }
    { Header := none, Bcname := "zz", AccountName := "", OpenUtxoRecord := none,
      LockedUtxoRecord := none, FrozenUtxoRecord := none, DisplayCount := 0 }
  ⟨by rfl, congrArg Reply.calls h.1, congrArg Reply.err h.2.2.1⟩

/-! ## Blocks by id and by height -/

/-- Appending the elements of a list one by one to a slice appends the list. -/
theorem foldl_append_each (ts : List Transaction) :
    ∀ init : List Transaction,
      ts.foldl (fun acc transaction => acc ++ [transaction]) init = init ++ ts := by
  induction ts with
  | nil => intro init; simp
  | cons t rest ih => intro init; simp [ih]

/-- The copy loop of `GetBlock` yields the list it ranges over. -/
theorem transactionsFilter_some (ts : List Transaction) :
    transactionsFilter (some ts) = ts := by
  simp [transactionsFilter, foldl_append_each]

/-- Writing to a block the transaction list it already has leaves the block as it is. -/
theorem setTransactions_same (block : Option InternalBlock) (ts : List Transaction)
    (h : getTransactions block = some ts) : setTransactions block ts = block := by
  cases block with
  | none => rfl
  | some b =>
    cases b
    simp only [getTransactions] at h
    simp [setTransactions, h]

/-- The block payload that `GetBlock` and `GetBlockByHeight` build from a block info is the
block of the block info. -/
theorem block_payload_same (block : Option InternalBlock) :
    (match getTransactions block with
      | none => block
      | some _ => setTransactions block (transactionsFilter (getTransactions block))) = block ∧
    (match getTransactions block with
      | none => block
      | some transactions => setTransactions block transactions) = block := by
  cases h : getTransactions block with
  | none => simp
  | some ts => simp [transactionsFilter_some, setTransactions_same block ts h]

/-- C11: when the block query by id and the block query by height both succeed with the
block info `blockInfo`, `GetBlock` and `GetBlockByHeight` return no error and the same block
payload and status, namely those of `blockInfo`; in both, the transaction list of the
response is the reader's list (absent when absent, empty when empty, else the same elements
in the same order); and the copy loop of `GetBlock` returns the list it ranges over. -/
theorem C11_block_passthrough (env : Env) (bid : BlockID) (bh : BlockHeight)
    (c1 c2 : Chain) (blockInfo : BlockInfo)
    (hres1 : env.engineGet bid.Bcname = .ok c1)
    (hblk1 : env.QueryBlock c1 bid.Blockid true = .ok blockInfo)
    (hres2 : env.engineGet bh.Bcname = .ok c2)
    (hblk2 : env.QueryBlockByHeight c2 bh.Height true = .ok blockInfo) :
    (GetBlock env bid).err = none ∧ (GetBlockByHeight env bh).err = none ∧
    (∃ o1 o2, (GetBlock env bid).resp = some o1 ∧ (GetBlockByHeight env bh).resp = some o2 ∧
      o1.Block = o2.Block ∧ o1.Status = o2.Status ∧
      o1.Block = blockInfo.Block ∧ o1.Status = blockInfo.Status ∧
      getTransactions o1.Block = getTransactions blockInfo.Block ∧
      getTransactions o2.Block = getTransactions blockInfo.Block) ∧
    ∀ ts : List Transaction, transactionsFilter (some ts) = ts := by
  have hp := block_payload_same blockInfo.Block
  refine ⟨by simp [GetBlock, hres1, hblk1], by simp [GetBlockByHeight, hres2, hblk2], ?_,
    transactionsFilter_some⟩
  simp only [GetBlock, hres1, hblk1, GetBlockByHeight, hres2, hblk2, hp.1, hp.2]
  exact ⟨_, _, rfl, rfl, rfl, rfl, rfl, rfl, rfl, rfl⟩

/-- C11 on the sample node: block `b1` of chain `x`, which is also its block at height 1,
comes back from both handlers with the transactions `t1, t2` in that order. -/
theorem C11_block_passthrough_witness :
    (GetBlock sampleEnv
      { Header := none, Bcname := "x", Blockid := "b1", NeedContent := true }).err = none ∧
    (GetBlockByHeight sampleEnv { Header := none, Bcname := "x", Height := 1 }).err = none ∧
    (GetBlock sampleEnv
      { Header := none, Bcname := "x", Blockid := "b1", NeedContent := true }).resp =
      (GetBlockByHeight sampleEnv { Header := none, Bcname := "x", Height := 1 }).resp ∧
    (GetBlock sampleEnv
      { Header := none, Bcname := "x", Blockid := "b1", NeedContent := true }).resp =
      some { Header := { Logid := "", Error := .SUCCESS }, Bcname := "", Blockid := "",
             Status := 1,
             Block := some { Blockid := "b1", Height := 1,
                             Transactions := some [{ Txid := "t1" }, { Txid := "t2" }] } } :=
  have h := C11_block_passthrough sampleEnv
    { Header := none, Bcname := "x", Blockid := "b1", NeedContent := true }
    { Header := none, Bcname := "x", Height := 1 } { id := 1 } { id := 1 }
    { Status := 1,
      Block := some { Blockid := "b1", Height := 1,
                      Transactions := some [{ Txid := "t1" }, { Txid := "t2" }] } }
    (by rfl) (by rfl) (by rfl) (by rfl)
  ⟨h.1, h.2.1, by decide, by decide⟩

/-! ## The aggregate status -/

/-- The loop of `GetSystemStatus`, when the chain-status handler returns on every name of
the list: it appends one status per name, in order, the response of the handler for that
name. -/
theorem GetSystemStatus_loop_statuses (env : Env) (hdr : Option Header) :
    ∀ names : List String,
      (∀ n ∈ names, ∃ r, GetBlockChainStatus env
        { Header := hdr, Bcname := n, Meta := none, Block := none, UtxoMeta := none } =
          some r) →
      ∃ sts calls, GetSystemStatus.loop env hdr names = some (sts, calls) ∧
        sts.length = names.length ∧
        ∀ (i : Nat) (n : String), names[i]? = some n →
          ∃ r, GetBlockChainStatus env
            { Header := hdr, Bcname := n, Meta := none, Block := none, UtxoMeta := none } =
              some r ∧ sts[i]? = some r.resp
  | [], _ => ⟨[], [], rfl, rfl, by simp⟩
  | name :: rest, h => by
    obtain ⟨r, hr⟩ := h name (List.mem_cons_self name rest)
    obtain ⟨sts, calls, hloop, hlen, hidx⟩ :=
      GetSystemStatus_loop_statuses env hdr rest
        (fun n hn => h n (List.mem_cons_of_mem name hn))
    refine ⟨r.resp :: sts,
      .handlerGetBlockChainStatus
        { Header := hdr, Bcname := name, Meta := none, Block := none, UtxoMeta := none } ::
        r.calls ++ calls,
      by simp only [GetSystemStatus.loop, hr, hloop], by simp [hlen], ?_⟩
    intro i n hi
    cases i with
    | zero =>
      simp only [List.getElem?_cons_zero, Option.some.injEq] at hi
      subst hi
      exact ⟨r, hr, by simp⟩
    | succ j =>
      simp only [List.getElem?_cons_succ] at hi
      obtain ⟨r2, hr2, hs⟩ := hidx j n hi
      exact ⟨r2, hr2, by simpa using hs⟩

/-- The aggregate status when the chain-status handler returns on every chain known to the
node: `GetSystemStatus` returns no error and one status per known chain in registry order,
the response of the handler for that chain, and the same list for every view selector. -/
theorem GetSystemStatus_statuses (env : Env) (inp : CommonIn)
    (hret : ∀ n ∈ env.GetChains, ∃ r, GetBlockChainStatus env
      { Header := inp.Header, Bcname := n, Meta := none, Block := none, UtxoMeta := none } =
        some r) :
    ∃ sts : List (Option BCStatus),
      sts.length = env.GetChains.length ∧
      (∀ (i : Nat) (n : String), env.GetChains[i]? = some n →
        ∃ r, GetBlockChainStatus env
          { Header := inp.Header, Bcname := n, Meta := none, Block := none,
            UtxoMeta := none } = some r ∧ sts[i]? = some r.resp) ∧
      ∀ v : ViewOption, ∃ reply out ss,
        GetSystemStatus env { inp with ViewOption := v } = some reply ∧
        reply.err = none ∧ reply.resp = some out ∧ out.SystemsStatus = some ss ∧
        ss.BcsStatus = sts := by
  obtain ⟨sts, calls, hloop, hlen, hidx⟩ :=
    GetSystemStatus_loop_statuses env inp.Header env.GetChains hret
  refine ⟨sts, hlen, hidx, fun v => ?_⟩
  simp only [GetSystemStatus, hloop]
  split
  · exact ⟨_, _, _, rfl, rfl, rfl, rfl, rfl⟩
  · exact ⟨_, _, _, rfl, rfl, rfl, rfl, rfl⟩

/-- The aggregate status on the sample node, whose status reader serves both chains: two
statuses, for `x` and `y` in that order, with and without the peer list. -/
theorem GetSystemStatus_statuses_sample :
    ∃ sts : List (Option BCStatus), sts.length = 2 ∧
      ∀ v : ViewOption, ∃ reply out ss,
        GetSystemStatus sampleEnv { Header := none, ViewOption := v } = some reply ∧
        reply.err = none ∧ reply.resp = some out ∧ out.SystemsStatus = some ss ∧
        ss.BcsStatus = sts :=
  have h := GetSystemStatus_statuses sampleEnv { Header := none, ViewOption := .NONE }
    (fun n hn => by
      have hn2 : n = "x" ∨ n = "y" := by simpa [sampleEnv] using hn
      rcases hn2 with rfl | rfl
      · exact ⟨_, rfl⟩
      · exact ⟨_, rfl⟩)
  h.elim (fun sts hs => ⟨sts, hs.1, hs.2.2⟩)

/-- C12 (fails on the code): on the sample node whose status reader fails on chain `y` with
an error and no status, the chain-status handler, which reads the fields of the status
after logging the error, does not return for `y`, and neither does `GetSystemStatus`, for
any view selector: no response with one status per known chain comes back. -/
theorem C12_status_reader_failure :
    sampleEnvStatusFails.GetChains = ["x", "y"] ∧
    sampleEnvStatusFails.GetChainStatus { id := 2 } = (none, some (.other "status error")) ∧
    GetBlockChainStatus sampleEnvStatusFails (sampleStatusRequest "y") = none ∧
    GetSystemStatus sampleEnvStatusFails { Header := none, ViewOption := .NONE } = none ∧
    GetSystemStatus sampleEnvStatusFails { Header := none, ViewOption := .LEDGER } = none ∧
    GetSystemStatus sampleEnvStatusFails { Header := none, ViewOption := .PEERS } = none := by
  decide

end Rpc
